import Mathlib

/-!
Shallow embedding of `src/utils/flash.ts` (the flash-session store of the
`flash` repository): the `Step` and `Error` enumerations, the
device-recognition validator, and the session operations
(`initialize`, `startFlashing` and its phase functions
`downloadImages`, `unpackImages`, `flashDevice`, `eraseDevice`, and
`handleError`).

The TypeScript code is asynchronous and effectful.  It is embedded as a
pure interpreter: every call that publishes to a Svelte store or issues a
device/worker call is recorded as an `Event`; the outcomes of the external
collaborators (the qdl device driver and the image worker) are supplied by
an environment structure, one field per external call site.  External
collaborators reject with exception objects or strings (modelled by
`ExtThrown`); the phase functions themselves throw numeric codes of the
`Error` record.  The per-item progress callbacks that flow through the
external `withProgress` aggregator (module `@/utils/progress`, outside
the sources of this repository) are not modelled; no claim depends on
intra-phase fractional progress values.
-/

namespace Flash

/-- The `Step` record of flash.ts lines 11–20 (the published session step).
The numeric values skip 5: FLASHING is 6. -/
inductive Step where
  | INITIALIZING
  | READY
  | CONNECTING
  | DOWNLOADING
  | UNPACKING
  | FLASHING
  | ERASING
  | DONE
  deriving DecidableEq, Repr

/-- Numeric value of each step, as declared in flash.ts lines 11–20. -/
def Step.toNat : Step → Nat
  | .INITIALIZING => 0
  | .READY => 1
  | .CONNECTING => 2
  | .DOWNLOADING => 3
  | .UNPACKING => 4
  | .FLASHING => 6
  | .ERASING => 7
  | .DONE => 8

/-- The `Error` record of flash.ts lines 22–32.  Note: the record in this file
has no `UNPACK_FAILED` key (the sibling source `src/unnamed/part_000`
declares `UNPACK_FAILED: 4` and shifts the later codes). -/
inductive Error where
  | UNKNOWN
  | NONE
  | UNRECOGNIZED_DEVICE
  | LOST_CONNECTION
  | DOWNLOAD_FAILED
  | CHECKSUM_MISMATCH
  | FLASH_FAILED
  | ERASE_FAILED
  | REQUIREMENTS_NOT_MET
  deriving DecidableEq, Repr

/-- Numeric value of each declared error code (flash.ts lines 22–32). -/
def Error.toInt : Error → Int
  | .UNKNOWN => -1
  | .NONE => 0
  | .UNRECOGNIZED_DEVICE => 1
  | .LOST_CONNECTION => 2
  | .DOWNLOAD_FAILED => 3
  | .CHECKSUM_MISMATCH => 4
  | .FLASH_FAILED => 5
  | .ERASE_FAILED => 6
  | .REQUIREMENTS_NOT_MET => 7

/-- The `Error` object of flash.ts lines 22–32 as the literal key/value
record, to settle which keys exist (property access on a missing key
yields `undefined` in JavaScript). -/
def ErrorRecord : List (String × Int) :=
  [("UNKNOWN", -1), ("NONE", 0), ("UNRECOGNIZED_DEVICE", 1), ("LOST_CONNECTION", 2),
   ("DOWNLOAD_FAILED", 3), ("CHECKSUM_MISMATCH", 4), ("FLASH_FAILED", 5),
   ("ERASE_FAILED", 6), ("REQUIREMENTS_NOT_MET", 7)]

/-- The fixed allow-list `expectedPartitions` of flash.ts lines 68–75. -/
def expectedPartitions : List String :=
  ["ALIGN_TO_128K_1", "ALIGN_TO_128K_2", "ImageFv", "abl", "aop", "apdp", "bluetooth", "boot",
   "cache", "cdt", "cmnlib", "cmnlib64", "ddr", "devcfg", "devinfo", "dip", "dsp", "fdemeta",
   "frp", "fsc", "fsg", "hyp", "keymaster", "keystore", "limits", "logdump", "logfs", "mdtp",
   "mdtpsecapp", "misc", "modem", "modemst1", "modemst2", "msadp", "persist", "qupfw",
   "rawdump", "sec", "splash", "spunvm", "ssd", "sti", "storsec", "system", "systemrw",
   "toolsfv", "tz", "userdata", "vm-linux", "vm-system", "xbl", "xbl_config"]

/-- `isRecognizedDevice` (flash.ts lines 62–82): false unless
`slotCount === 2`, then false unless every reported partition is in the
allow-list (`partitions.every(p => expectedPartitions.includes(p))`). -/
def isRecognizedDevice (slotCount : Int) (partitions : List String) : Bool :=
  if slotCount ≠ 2 then
    false
  else if ¬ (partitions.all (fun partition => expectedPartitions.contains partition)) then
    false
  else
    true

/-- An image descriptor of the manifest (interface `ManifestImage`). -/
structure ManifestImage where
  name : String
  deriving DecidableEq, Repr

/-- A value thrown by JavaScript code in this module.  Phase functions
throw numeric codes of the `Error` record; `startFlashing`-internal guard
code throws `Error`-like objects; `unpackImages` can throw `undefined`
(the value of the missing `Error.UNPACK_FAILED` key). -/
inductive Thrown where
  | code (c : Error)
  | str (s : String)
  | obj (msg : String) (code : Option Int)
  | undef
  deriving DecidableEq, Repr

/-- A rejection value produced by an external collaborator (device driver
or image worker): an exception object, possibly carrying a numeric `.code`
property (e.g. a DOMException), or a string. -/
inductive ExtThrown where
  | str (s : String)
  | obj (msg : String) (code : Option Int)
  deriving DecidableEq, Repr

/-- External rejections, viewed as thrown values. -/
def ExtThrown.toThrown : ExtThrown → Thrown
  | .str s => Thrown.str s
  | .obj m c => Thrown.obj m c

/-- A value held by the published `error` store: either one of the
declared coarse codes, or a raw number / string / object published as-is
by `handleError`. -/
inductive ErrVal where
  | enum (c : Error)
  | num (n : Int)
  | str (s : String)
  | obj (msg : String)
  deriving DecidableEq, Repr

/-- Whether a published error value is a member of the declared coarse
error record. -/
def ErrVal.isCoarse : ErrVal → Bool
  | .enum _ => true
  | _ => false

/-- A value stored in the `onContinue`/`onRetry` stores.  `reloadThunk` is
the function `() => () => window.location.reload()` passed to
`onRetry.set` in `handleError` (the Svelte `writable.set` method stores its
argument as-is). -/
inductive Callback where
  | reloadThunk
  deriving DecidableEq, Repr

/-- A payload handed to `qdl.flashBlob`: either the file blob obtained
from `imageWorker.getImage` (identified by the image name) or an
in-memory byte buffer. -/
inductive Payload where
  | file (imageName : String)
  | bytes (data : List Nat)
  deriving DecidableEq, Repr

/-- A call issued to the qdl device driver. -/
inductive DevAction where
  | waitForConnect
  | getDevicePartitionsInfo
  | getActiveSlot
  | erase (partitionName : String)
  | flashBlob (partitionName : String) (payload : Payload)
  | setActiveSlot (slot : String)
  | reset
  deriving DecidableEq, Repr

/-- A call issued to the image worker. -/
inductive WorkerCall where
  | init
  | downloadImage (name : String)
  | unpackImage (name : String)
  | getImage (name : String)
  deriving DecidableEq, Repr

/-- One observable effect of the session code: a `set` on one of the
Svelte stores, or a call to an external collaborator. -/
inductive Event where
  | setStep (s : Step)
  | setMessage (m : String)
  | setProgress (p : ℚ)
  | setError (e : ErrVal)
  | setConnected (b : Bool)
  | setSerial (s : String)
  | setOnContinue (c : Option Callback)
  | setOnRetry (c : Option Callback)
  | dev (a : DevAction)
  | worker (w : WorkerCall)
  deriving DecidableEq, Repr

/-- The published store fields (`createQdlStore`, flash.ts lines 85–92). -/
structure StoreState where
  step : Step
  message : String
  progress : ℚ
  error : ErrVal
  connected : Bool
  serial : Option String
  onContinue : Option Callback
  onRetry : Option Callback
  deriving DecidableEq, Repr

/-- The module-level mutable variables of `createQdlStore`
(`manifest`, initially `[]`, and `imageWorker`, initially `null`). -/
structure SessionVars where
  manifest : List ManifestImage
  imageWorkerSet : Bool
  deriving DecidableEq, Repr

/-- Effect of one store write on the published state. -/
def applyEvent (s : StoreState) : Event → StoreState
  | .setStep v => { s with step := v }
  | .setMessage v => { s with message := v }
  | .setProgress v => { s with progress := v }
  | .setError v => { s with error := v }
  | .setConnected v => { s with connected := v }
  | .setSerial v => { s with serial := some v }
  | .setOnContinue v => { s with onContinue := v }
  | .setOnRetry v => { s with onRetry := v }
  | .dev _ => s
  | .worker _ => s

/-- Effect of a sequence of events on the published state. -/
def applyEvents (s : StoreState) (l : List Event) : StoreState :=
  l.foldl applyEvent s

/-- The store state at construction (flash.ts lines 85–92). -/
def initialState : StoreState :=
  { step := Step.INITIALIZING, message := "", progress := 0, error := ErrVal.enum Error.NONE,
    connected := false, serial := none, onContinue := none, onRetry := none }

/-- The module variables at construction (flash.ts lines 95–96). -/
def initialVars : SessionVars :=
  { manifest := [], imageWorkerSet := false }

/-- The JavaScript method `String.prototype.startsWith`: whether `p` is a prefix
of `s` (character-wise). -/
def strStartsWith (s p : String) : Bool :=
  p.data.isPrefixOf s.data

/-- UTF-8 encoding of one Unicode scalar value. -/
def utf8Bytes (n : Nat) : List Nat :=
  if n < 128 then [n]
  else if n < 2048 then [192 + n / 64, 128 + n % 64]
  else if n < 65536 then [224 + n / 4096, 128 + (n / 64) % 64, 128 + n % 64]
  else [240 + n / 262144, 128 + (n / 4096) % 64, 128 + (n / 64) % 64, 128 + n % 64]

/-- `new TextEncoder().encode(s)`: the UTF-8 bytes of `s`. -/
def textEncode (s : String) : List Nat :=
  (s.data.map (fun c => utf8Bytes c.toNat)).flatten

/-- The bytes of the fixed reset marker written by `eraseDevice`. -/
def resetMarkerBytes : List Nat :=
  textEncode ("COMMA_RESET")

/-- The erase payload (flash.ts lines 226–227): the marker bytes
zero-padded to 28 bytes (`new Uint8Array(28 - wData.length).fill(0)`). -/
def erasePayload : List Nat :=
  resetMarkerBytes ++ List.replicate (28 - resetMarkerBytes.length) 0

/-- The value `handleError` publishes: `err.code || err` (flash.ts line
242).  A number or string carries no (truthy) `code` property and is
published as-is; a truthy numeric `code` property of an object is published if
present; accessing `.code` on `undefined` raises a TypeError, so no value
is derived (`none`). -/
def errValOfThrown : Thrown → Option ErrVal
  | .code c => some (ErrVal.enum c)
  | .str s => some (ErrVal.str s)
  | .obj m none => some (ErrVal.obj m)
  | .obj m (some n) => some (if n = 0 then ErrVal.obj m else ErrVal.num n)
  | .undef => none

/-- The four store writes performed by `handleError` (flash.ts lines
243–246), in order. -/
def handleErrorEvents (v : ErrVal) : List Event :=
  [Event.setError v, Event.setProgress (-1), Event.setOnContinue none,
   Event.setOnRetry (some Callback.reloadThunk)]

/-- `handleError` (flash.ts lines 241–247): derive `err.code || err` and
publish it, set progress to -1, clear `onContinue`, arm `onRetry` with
`() => () => window.location.reload()`.  On `undefined` input the
property access on line 242 itself throws, so no write happens. -/
def handleError (t : Thrown) : Option (List Event) :=
  (errValOfThrown t).map handleErrorEvents

/-- Outcome of one `startFlashing` call: normal completion, the early
return after an unrecognized device, a failure processed by
`handleError`, or a crash of `handleError` itself on `undefined`. -/
inductive SFOutcome where
  | done
  | unrecognized
  | handled (v : ErrVal)
  | crashed
  deriving DecidableEq, Repr

/-- The catch block of `startFlashing`: run `handleError` on the thrown
value, appending its writes (or none, if it crashes). -/
def finishWithThrown (pre : List Event) (t : Thrown) : List Event × SFOutcome :=
  match errValOfThrown t with
  | some v => (pre ++ handleErrorEvents v, SFOutcome.handled v)
  | none => (pre, SFOutcome.crashed)

/-- Environment for one `startFlashing` call: the outcome of every
external call it can issue.  Per-index fields follow manifest order. -/
structure FlashEnv where
  connectResult : Option ExtThrown
  devInfoResult : Option ExtThrown
  slotCount : Int
  partitions : List String
  serial : Option String
  downloadOk : Nat → Bool
  unpackResult : Nat → Option String
  getActiveSlotOk : Bool
  activeSlot : String
  eraseOk : String → Bool
  getImageOk : Nat → Bool
  flashOk : String → Bool
  setSlotOk : Bool
  resetOk : Bool

/-- The download loop of `downloadImages` (flash.ts lines 165–168):
message, worker call, abort on first failure. -/
def downloadLoop (env : FlashEnv) : List ManifestImage → Nat → List Event × Bool
  | [], _ => ([], true)
  | img :: rest, i =>
    let evs := [Event.setMessage ("Downloading " ++ img.name),
      Event.worker (WorkerCall.downloadImage img.name)]
    if env.downloadOk i then
      let r := downloadLoop env rest (i + 1)
      (evs ++ r.1, r.2)
    else
      (evs, false)

/-- `downloadImages` (flash.ts lines 161–175).  The `imageWorker` guard
throws a raw `Error` object before the try block; otherwise progress is
reset, the loop runs, and on success the step advances to UNPACKING; any
failure inside the try is re-thrown as the number
`Error.DOWNLOAD_FAILED`. -/
def downloadImages (vars : SessionVars) (env : FlashEnv) : List Event × Option Thrown :=
  if vars.imageWorkerSet = false then
    ([], some (Thrown.obj ("ImageWorker not initialized") none))
  else
    let r := downloadLoop env vars.manifest 0
    if r.2 then
      (Event.setProgress 0 :: r.1 ++ [Event.setStep Step.UNPACKING], none)
    else
      (Event.setProgress 0 :: r.1, some (Thrown.code Error.DOWNLOAD_FAILED))

/-- The unpack loop of `unpackImages` (flash.ts lines 181–184); the first
rejection message (a string) of the first failing image aborts the loop. -/
def unpackLoop (env : FlashEnv) : List ManifestImage → Nat → List Event × Option String
  | [], _ => ([], none)
  | img :: rest, i =>
    let evs := [Event.setMessage ("Unpacking " ++ img.name),
      Event.worker (WorkerCall.unpackImage img.name)]
    match env.unpackResult i with
    | none =>
      let r := unpackLoop env rest (i + 1)
      (evs ++ r.1, r.2)
    | some msg =>
      (evs, some msg)

/-- `unpackImages` (flash.ts lines 177–191).  On success the step
advances to FLASHING.  On failure, line 189 throws
`Error.CHECKSUM_MISMATCH` if the message starts with the checksum marker
and otherwise `Error.UNPACK_FAILED` — a key absent from the
`Error` record, so the thrown value is `undefined`. -/
def unpackImages (vars : SessionVars) (env : FlashEnv) : List Event × Option Thrown :=
  if vars.imageWorkerSet = false then
    ([], some (Thrown.obj ("ImageWorker not initialized") none))
  else
    let r := unpackLoop env vars.manifest 0
    match r.2 with
    | none =>
      (Event.setProgress 0 :: r.1 ++ [Event.setStep Step.FLASHING], none)
    | some msg =>
      (Event.setProgress 0 :: r.1,
        some (if strStartsWith msg ("Checksum mismatch") then Thrown.code Error.CHECKSUM_MISMATCH
          else Thrown.undef))

/-- The flash loop of `flashDevice` (flash.ts lines 205–212): fetch the
image blob, then write it to `<imageName>_<otherSlot>`; abort on first
failure. -/
def flashLoop (env : FlashEnv) (otherSlot : String) :
    List ManifestImage → Nat → List Event × Bool
  | [], _ => ([], true)
  | img :: rest, i =>
    if env.getImageOk i then
      let pname := img.name ++ ("_" ++ otherSlot)
      let evs := [Event.worker (WorkerCall.getImage img.name),
        Event.setMessage ("Flashing " ++ img.name),
        Event.dev (DevAction.flashBlob pname (Payload.file img.name))]
      if env.flashOk pname then
        let r := flashLoop env otherSlot rest (i + 1)
        (evs ++ r.1, r.2)
      else
        (evs, false)
    else
      ([Event.worker (WorkerCall.getImage img.name)], false)

/-- `flashDevice` (flash.ts lines 193–220): read the active slot; throw
unless it is exactly "a" or "b"; erase `xbl_<currentSlot>`; write every
image to `<imageName>_<otherSlot>` in manifest order; switch the active
slot to `otherSlot`.  Every failure inside the try is re-thrown as
`Error.FLASH_FAILED`.  It does not publish any step change. -/
def flashDevice (vars : SessionVars) (env : FlashEnv) : List Event × Option Thrown :=
  if vars.imageWorkerSet = false then
    ([], some (Thrown.obj ("ImageWorker not initialized") none))
  else
    let pre := [Event.setProgress 0, Event.dev DevAction.getActiveSlot]
    if env.getActiveSlotOk = false then
      (pre, some (Thrown.code Error.FLASH_FAILED))
    else if ¬ (env.activeSlot = "a" ∨ env.activeSlot = "b") then
      (pre, some (Thrown.code Error.FLASH_FAILED))
    else
      let otherSlot := if env.activeSlot = "a" then "b" else "a"
      let eev := Event.dev (DevAction.erase ("xbl_" ++ env.activeSlot))
      if env.eraseOk ("xbl_" ++ env.activeSlot) = false then
        (pre ++ [eev], some (Thrown.code Error.FLASH_FAILED))
      else
        let r := flashLoop env otherSlot vars.manifest 0
        if r.2 = false then
          (pre ++ eev :: r.1, some (Thrown.code Error.FLASH_FAILED))
        else
          let post := [Event.setMessage ("Changing slot to " ++ otherSlot),
            Event.dev (DevAction.setActiveSlot otherSlot)]
          if env.setSlotOk = false then
            (pre ++ eev :: r.1 ++ post, some (Thrown.code Error.FLASH_FAILED))
          else
            (pre ++ eev :: r.1 ++ post, none)

/-- `eraseDevice` (flash.ts lines 222–239): write the 28-byte payload to
the (not slot-suffixed) `userdata` partition, set progress to 0.9, reset
the device, set progress to 1 and `connected` to false.  Failures are
re-thrown as `Error.ERASE_FAILED`.  No step change is published. -/
def eraseDevice (env : FlashEnv) : List Event × Option Thrown :=
  let evs1 := [Event.setProgress 0, Event.setMessage ("Erasing userdata"),
    Event.dev (DevAction.flashBlob ("userdata") (Payload.bytes erasePayload))]
  if env.flashOk ("userdata") = false then
    (evs1, some (Thrown.code Error.ERASE_FAILED))
  else
    let evs2 := evs1 ++ [Event.setProgress (9 / 10), Event.setMessage ("Rebooting"),
      Event.dev DevAction.reset]
    if env.resetOk = false then
      (evs2, some (Thrown.code Error.ERASE_FAILED))
    else
      (evs2 ++ [Event.setProgress 1, Event.setConnected false], none)

/-- The expression on flash.ts line 146 taking `qdl.sahara.serial` with fallback: the sentinel
"unknown" replaces an absent or empty serial. -/
def serialValue : Option String → String
  | some s => if s = "" then "unknown" else s
  | none => "unknown"

/-- `startFlashing` (flash.ts lines 131–159): set step to CONNECTING,
wait for connection, read device info, gate on `isRecognizedDevice`
(publishing UNRECOGNIZED_DEVICE and returning on rejection), capture
serial (sentinel "unknown") and set `connected`, advance to DOWNLOADING,
then run the four phases; any thrown value goes to `handleError`. -/
def startFlashing (vars : SessionVars) (env : FlashEnv) : List Event × SFOutcome :=
  let e0 := [Event.setStep Step.CONNECTING, Event.dev DevAction.waitForConnect]
  match env.connectResult with
  | some t => finishWithThrown e0 t.toThrown
  | none =>
    let e1 := e0 ++ [Event.dev DevAction.getDevicePartitionsInfo]
    match env.devInfoResult with
    | some t => finishWithThrown e1 t.toThrown
    | none =>
      if isRecognizedDevice env.slotCount env.partitions = false then
        (e1 ++ [Event.setError (ErrVal.enum Error.UNRECOGNIZED_DEVICE)], SFOutcome.unrecognized)
      else
        let e2 := e1 ++ [Event.setSerial (serialValue env.serial), Event.setConnected true,
          Event.setStep Step.DOWNLOADING]
        let d := downloadImages vars env
        match d.2 with
        | some t => finishWithThrown (e2 ++ d.1) t
        | none =>
          let u := unpackImages vars env
          match u.2 with
          | some t => finishWithThrown (e2 ++ d.1 ++ u.1) t
          | none =>
            let f := flashDevice vars env
            match f.2 with
            | some t => finishWithThrown (e2 ++ d.1 ++ u.1 ++ f.1) t
            | none =>
              let er := eraseDevice env
              match er.2 with
              | some t => finishWithThrown (e2 ++ d.1 ++ u.1 ++ f.1 ++ er.1) t
              | none =>
                (e2 ++ d.1 ++ u.1 ++ f.1 ++ er.1 ++ [Event.setStep Step.DONE], SFOutcome.done)

/-- Environment for one `initialize` call. -/
structure InitEnv where
  usbDefined : Bool
  workerDefined : Bool
  storageDefined : Bool
  workerInitOk : Bool
  blobOk : Bool
  manifestParse : Option (List ManifestImage)

/-- `initialize` (flash.ts lines 103–129).  `imageWorker` is assigned
before the capability check.  A failed capability check publishes
REQUIREMENTS_NOT_MET; any failure of worker init, manifest download, or
manifest parsing — and an empty manifest — publishes UNKNOWN; otherwise
the step advances to READY. -/
def initStore (vars : SessionVars) (env : InitEnv) : List Event × SessionVars :=
  let vars1 : SessionVars := { vars with imageWorkerSet := true }
  if ¬ (env.usbDefined ∧ env.workerDefined ∧ env.storageDefined) then
    ([Event.setError (ErrVal.enum Error.REQUIREMENTS_NOT_MET)], vars1)
  else
    let evInit := [Event.worker WorkerCall.init]
    if env.workerInitOk = false then
      (evInit ++ [Event.setError (ErrVal.enum Error.UNKNOWN)], vars1)
    else if env.blobOk = false then
      (evInit ++ [Event.setError (ErrVal.enum Error.UNKNOWN)], vars1)
    else
      match env.manifestParse with
      | none => (evInit ++ [Event.setError (ErrVal.enum Error.UNKNOWN)], vars1)
      | some m =>
        let vars2 : SessionVars := { vars1 with manifest := m }
        if m.length = 0 then
          (evInit ++ [Event.setError (ErrVal.enum Error.UNKNOWN)], vars2)
        else
          (evInit ++ [Event.setStep Step.READY], vars2)

/-- One public operation on the store (the two methods it exposes). -/
inductive Op where
  | init (env : InitEnv)
  | flash (env : FlashEnv)

/-- Result of running a sequence of operations. -/
structure RunResult where
  state : StoreState
  vars : SessionVars
  events : List Event

/-- Run one operation against the published state and module variables. -/
def runOp (st : StoreState) (vars : SessionVars) : Op → RunResult
  | Op.init env =>
    let r := initStore vars env
    { state := applyEvents st r.1, vars := r.2, events := r.1 }
  | Op.flash env =>
    let r := startFlashing vars env
    { state := applyEvents st r.1, vars := vars, events := r.1 }

/-- Run a sequence of operations, concatenating the event traces. -/
def runOps (st : StoreState) (vars : SessionVars) : List Op → RunResult
  | [] => { state := st, vars := vars, events := [] }
  | op :: rest =>
    let r := runOp st vars op
    let r2 := runOps r.state r.vars rest
    { state := r2.state, vars := r2.vars, events := r.events ++ r2.events }

/-! ### Observations on traces and states -/

/-- Events a download/unpack loop iteration emits: status messages and
worker calls only. -/
def benignEvent : Event → Bool
  | Event.setMessage _ => true
  | Event.worker _ => true
  | _ => false

/-- Events a flash loop iteration emits: messages, worker calls, and
partition writes of image-file payloads. -/
def flashLoopEvent : Event → Bool
  | Event.setMessage _ => true
  | Event.worker _ => true
  | Event.dev (DevAction.flashBlob _ (Payload.file _)) => true
  | _ => false

/-- The erase/write/slot-switch calls issued to the device, in order
(read-only device calls are not writes). -/
def devWrites (t : List Event) : List DevAction :=
  t.filterMap (fun e =>
    match e with
    | Event.dev (DevAction.erase p) => some (DevAction.erase p)
    | Event.dev (DevAction.flashBlob p pay) => some (DevAction.flashBlob p pay)
    | Event.dev (DevAction.setActiveSlot s) => some (DevAction.setActiveSlot s)
    | _ => none)

/-- The user-data wipe: the write of the 28-byte sentinel payload to the
`userdata` partition. -/
def isWipeEvent (e : Event) : Bool :=
  decide (e = Event.dev (DevAction.flashBlob ("userdata") (Payload.bytes erasePayload)))

/-- The last step published by a trace, starting from `s0`. -/
def lastStep (t : List Event) (s0 : Step) : Step :=
  t.foldl (fun c e => match e with | Event.setStep s => s | _ => c) s0

/-- The last error value published by a trace, starting from `v0`. -/
def lastErr (t : List Event) (v0 : ErrVal) : ErrVal :=
  t.foldl (fun c e => match e with | Event.setError v => v | _ => c) v0

/-- Track the published step across a trace (`none` = no step published
yet). -/
def trackStep (t : List Event) (cur : Option Step) : Option Step :=
  t.foldl (fun c e => match e with | Event.setStep s => some s | _ => c) cur

/-- The published step while the first event satisfying `p` occurs
(`none` if no such event occurs, or no step was published before it and
`cur` is `none`). -/
def stepAtFirst (p : Event → Bool) : List Event → Option Step → Option Step
  | [], _ => none
  | e :: t, cur =>
    if p e then cur
    else stepAtFirst p t (match e with | Event.setStep s => some s | _ => cur)

/-! ### Concrete fixtures -/

/-- A fully cooperative environment: recognized dual-slot device on slot
"a", every external call succeeds. -/
def happyEnv : FlashEnv :=
  { connectResult := none, devInfoResult := none, slotCount := 2,
    partitions := ["boot", "system"], serial := some ("000111"),
    downloadOk := fun _ => true, unpackResult := fun _ => none,
    getActiveSlotOk := true, activeSlot := "a", eraseOk := fun _ => true,
    getImageOk := fun _ => true, flashOk := fun _ => true,
    setSlotOk := true, resetOk := true }

/-- Module variables after a successful initialization with a two-image
manifest. -/
def twoImageVars : SessionVars :=
  { manifest := [{ name := "boot" }, { name := "system" }], imageWorkerSet := true }

/-! ### Trace and state utilities -/

theorem applyEvents_append (s : StoreState) (t1 t2 : List Event) :
    applyEvents s (t1 ++ t2) = applyEvents (applyEvents s t1) t2 := by
  simp [applyEvents]

theorem applyEvents_handle (s : StoreState) (v : ErrVal) :
    (applyEvents s (handleErrorEvents v)).error = v ∧
    (applyEvents s (handleErrorEvents v)).progress = -1 ∧
    (applyEvents s (handleErrorEvents v)).onContinue = none ∧
    (applyEvents s (handleErrorEvents v)).onRetry = some Callback.reloadThunk ∧
    (applyEvents s (handleErrorEvents v)).step = s.step :=
  ⟨rfl, rfl, rfl, rfl, rfl⟩

theorem applyEvents_step (s : StoreState) (t : List Event) :
    (applyEvents s t).step = lastStep t s.step := by
  induction t generalizing s with
  | nil => rfl
  | cons e t ih =>
    have h1 : applyEvents s (e :: t) = applyEvents (applyEvent s e) t := rfl
    have h2 : lastStep (e :: t) s.step = lastStep t ((applyEvent s e).step) := by
      cases e <;> rfl
    rw [h1, ih, h2]

theorem applyEvents_error (s : StoreState) (t : List Event) :
    (applyEvents s t).error = lastErr t s.error := by
  induction t generalizing s with
  | nil => rfl
  | cons e t ih =>
    have h1 : applyEvents s (e :: t) = applyEvents (applyEvent s e) t := rfl
    have h2 : lastErr (e :: t) s.error = lastErr t ((applyEvent s e).error) := by
      cases e <;> rfl
    rw [h1, ih, h2]

theorem lastStep_append (t1 t2 : List Event) (s0 : Step) :
    lastStep (t1 ++ t2) s0 = lastStep t2 (lastStep t1 s0) := by
  simp [lastStep]

theorem lastErr_append (t1 t2 : List Event) (v0 : ErrVal) :
    lastErr (t1 ++ t2) v0 = lastErr t2 (lastErr t1 v0) := by
  simp [lastErr]

theorem lastStep_no_setStep :
    ∀ t : List Event, (∀ x : Step, Event.setStep x ∉ t) → ∀ s0, lastStep t s0 = s0 := by
  intro t
  induction t with
  | nil => intro _ _; rfl
  | cons e t ih =>
    intro h s0
    have he : ∀ x : Step, Event.setStep x ∉ t :=
      fun x hx => h x (List.mem_cons_of_mem _ hx)
    cases e with
    | setStep x => exact absurd (List.mem_cons_self _ _) (h x)
    | setMessage m => exact ih he s0
    | setProgress p => exact ih he s0
    | setError v => exact ih he s0
    | setConnected b => exact ih he s0
    | setSerial sv => exact ih he s0
    | setOnContinue c => exact ih he s0
    | setOnRetry c => exact ih he s0
    | dev a => exact ih he s0
    | worker w => exact ih he s0

theorem lastErr_no_setError :
    ∀ t : List Event, (∀ v : ErrVal, Event.setError v ∉ t) → ∀ v0, lastErr t v0 = v0 := by
  intro t
  induction t with
  | nil => intro _ _; rfl
  | cons e t ih =>
    intro h v0
    have he : ∀ v : ErrVal, Event.setError v ∉ t :=
      fun v hv => h v (List.mem_cons_of_mem _ hv)
    cases e with
    | setError v => exact absurd (List.mem_cons_self _ _) (h v)
    | setStep x => exact ih he v0
    | setMessage m => exact ih he v0
    | setProgress p => exact ih he v0
    | setConnected b => exact ih he v0
    | setSerial sv => exact ih he v0
    | setOnContinue c => exact ih he v0
    | setOnRetry c => exact ih he v0
    | dev a => exact ih he v0
    | worker w => exact ih he v0

theorem benign_no_setStep (t : List Event) (hb : ∀ e ∈ t, benignEvent e = true)
    (x : Step) : Event.setStep x ∉ t := by
  intro hx
  have := hb _ hx
  simp [benignEvent] at this

theorem benign_no_setError (t : List Event) (hb : ∀ e ∈ t, benignEvent e = true)
    (v : ErrVal) : Event.setError v ∉ t := by
  intro hx
  have := hb _ hx
  simp [benignEvent] at this

theorem flashLoopEvent_no_setStep (t : List Event)
    (hb : ∀ e ∈ t, flashLoopEvent e = true) (x : Step) : Event.setStep x ∉ t := by
  intro hx
  have := hb _ hx
  simp [flashLoopEvent] at this

theorem flashLoopEvent_no_setError (t : List Event)
    (hb : ∀ e ∈ t, flashLoopEvent e = true) (v : ErrVal) : Event.setError v ∉ t := by
  intro hx
  have := hb _ hx
  simp [flashLoopEvent] at this

theorem devWrites_append (t1 t2 : List Event) :
    devWrites (t1 ++ t2) = devWrites t1 ++ devWrites t2 := by
  simp [devWrites]

/-! ### Loop lemmas -/

theorem downloadLoop_benign (env : FlashEnv) (l : List ManifestImage) (i : Nat) :
    ∀ e ∈ (downloadLoop env l i).1, benignEvent e = true := by
  induction l generalizing i with
  | nil => intro e he; simp [downloadLoop] at he
  | cons img rest ih =>
    intro e he
    by_cases hd : env.downloadOk i <;> simp [downloadLoop, hd] at he
    · rcases he with he | he | he
      · subst he; rfl
      · subst he; rfl
      · exact ih (i + 1) e he
    · rcases he with he | he
      · subst he; rfl
      · subst he; rfl

theorem unpackLoop_benign (env : FlashEnv) (l : List ManifestImage) (i : Nat) :
    ∀ e ∈ (unpackLoop env l i).1, benignEvent e = true := by
  induction l generalizing i with
  | nil => intro e he; simp [unpackLoop] at he
  | cons img rest ih =>
    intro e he
    cases hu : env.unpackResult i <;> simp [unpackLoop, hu] at he
    · rcases he with he | he | he
      · subst he; rfl
      · subst he; rfl
      · exact ih (i + 1) e he
    · rcases he with he | he
      · subst he; rfl
      · subst he; rfl

theorem flashLoop_benign (env : FlashEnv) (os : String) (l : List ManifestImage) (i : Nat) :
    ∀ e ∈ (flashLoop env os l i).1, flashLoopEvent e = true := by
  induction l generalizing i with
  | nil => intro e he; simp [flashLoop] at he
  | cons img rest ih =>
    intro e he
    by_cases hg : env.getImageOk i
    · by_cases hf : env.flashOk (img.name ++ ("_" ++ os)) <;>
        simp [flashLoop, hg, hf] at he
      · rcases he with he | he | he | he
        · subst he; rfl
        · subst he; rfl
        · subst he; rfl
        · exact ih (i + 1) e he
      · rcases he with he | he | he
        · subst he; rfl
        · subst he; rfl
        · subst he; rfl
    · simp [flashLoop, hg] at he
      subst he; rfl

theorem flashLoop_devWrites (env : FlashEnv) (os : String) (l : List ManifestImage) (i : Nat)
    (h : (flashLoop env os l i).2 = true) :
    devWrites (flashLoop env os l i).1 =
      l.map (fun img => DevAction.flashBlob (img.name ++ ("_" ++ os)) (Payload.file img.name)) := by
  induction l generalizing i with
  | nil => simp [flashLoop, devWrites]
  | cons img rest ih =>
    by_cases hg : env.getImageOk i
    · by_cases hf : env.flashOk (img.name ++ ("_" ++ os))
      · have h2 : (flashLoop env os rest (i + 1)).2 = true := by
          simpa [flashLoop, hg, hf] using h
        have ih2 := ih (i + 1) h2
        simp [flashLoop, hg, hf, devWrites, List.filterMap_append] at ih2 ⊢
        exact ih2
      · exact absurd h (by simp [flashLoop, hg, hf])
    · exact absurd h (by simp [flashLoop, hg])

/-! ### Phase-level lemmas -/

/-- Events that publish neither a step nor an error value. -/
def noStepErrEvent : Event → Bool
  | Event.setStep _ => false
  | Event.setError _ => false
  | _ => true

theorem benign_noStepErr (e : Event) (h : benignEvent e = true) : noStepErrEvent e = true := by
  cases e <;> simp [benignEvent, noStepErrEvent] at h ⊢

theorem flashLoopEvent_noStepErr (e : Event) (h : flashLoopEvent e = true) :
    noStepErrEvent e = true := by
  cases e <;> simp [flashLoopEvent, noStepErrEvent] at h ⊢

theorem downloadImages_ok (vars : SessionVars) (env : FlashEnv)
    (h : (downloadImages vars env).2 = none) :
    (downloadImages vars env).1 =
      Event.setProgress 0 :: (downloadLoop env vars.manifest 0).1 ++
        [Event.setStep Step.UNPACKING] := by
  cases hW : vars.imageWorkerSet with
  | false => simp [downloadImages, hW] at h
  | true =>
    cases hL : (downloadLoop env vars.manifest 0).2 with
    | false => simp [downloadImages, hW, hL] at h
    | true => simp [downloadImages, hW, hL]

theorem unpackImages_ok (vars : SessionVars) (env : FlashEnv)
    (h : (unpackImages vars env).2 = none) :
    (unpackImages vars env).1 =
      Event.setProgress 0 :: (unpackLoop env vars.manifest 0).1 ++
        [Event.setStep Step.FLASHING] := by
  cases hW : vars.imageWorkerSet with
  | false => simp [unpackImages, hW] at h
  | true =>
    cases hL : (unpackLoop env vars.manifest 0).2 with
    | some msg => simp [unpackImages, hW, hL] at h
    | none => simp [unpackImages, hW, hL]

theorem flashDevice_ok (vars : SessionVars) (env : FlashEnv)
    (h : (flashDevice vars env).2 = none) :
    (env.activeSlot = "a" ∨ env.activeSlot = "b") ∧
    (flashLoop env (if env.activeSlot = "a" then "b" else "a") vars.manifest 0).2 = true ∧
    (flashDevice vars env).1 =
      [Event.setProgress 0, Event.dev DevAction.getActiveSlot] ++
        Event.dev (DevAction.erase ("xbl_" ++ env.activeSlot)) ::
          (flashLoop env (if env.activeSlot = "a" then "b" else "a") vars.manifest 0).1 ++
        [Event.setMessage ("Changing slot to " ++ (if env.activeSlot = "a" then "b" else "a")),
         Event.dev (DevAction.setActiveSlot (if env.activeSlot = "a" then "b" else "a"))] := by
  cases hW : vars.imageWorkerSet with
  | false => simp [flashDevice, hW] at h
  | true =>
    cases hG : env.getActiveSlotOk with
    | false => simp [flashDevice, hW, hG] at h
    | true =>
      by_cases hS : env.activeSlot = "a" ∨ env.activeSlot = "b"
      · cases hE : env.eraseOk ("xbl_" ++ env.activeSlot) with
        | false => simp [flashDevice, hW, hG, hS, hE] at h
        | true =>
          cases hF : (flashLoop env (if env.activeSlot = "a" then "b" else "a")
              vars.manifest 0).2 with
          | false => simp [flashDevice, hW, hG, hS, hE, hF] at h
          | true =>
            cases hSet : env.setSlotOk with
            | false => simp [flashDevice, hW, hG, hS, hE, hF, hSet] at h
            | true =>
              refine ⟨hS, rfl, ?_⟩
              simp [flashDevice, hW, hG, hS, hE, hF, hSet]
      · simp [flashDevice, hW, hG, hS] at h

theorem eraseDevice_ok (env : FlashEnv) (h : (eraseDevice env).2 = none) :
    (eraseDevice env).1 =
      [Event.setProgress 0, Event.setMessage ("Erasing userdata"),
       Event.dev (DevAction.flashBlob ("userdata") (Payload.bytes erasePayload)),
       Event.setProgress (9 / 10), Event.setMessage ("Rebooting"), Event.dev DevAction.reset,
       Event.setProgress 1, Event.setConnected false] := by
  cases hU : env.flashOk ("userdata") with
  | false => simp [eraseDevice, hU] at h
  | true =>
    cases hR : env.resetOk with
    | false => simp [eraseDevice, hU, hR] at h
    | true => simp [eraseDevice, hU, hR]

theorem downloadImages_thrown (vars : SessionVars) (env : FlashEnv) (t : Thrown)
    (h : (downloadImages vars env).2 = some t) :
    t = Thrown.obj ("ImageWorker not initialized") none ∨
    t = Thrown.code Error.DOWNLOAD_FAILED := by
  cases hW : vars.imageWorkerSet with
  | false =>
    simp [downloadImages, hW] at h
    exact Or.inl h.symm
  | true =>
    cases hL : (downloadLoop env vars.manifest 0).2 with
    | true => simp [downloadImages, hW, hL] at h
    | false =>
      simp [downloadImages, hW, hL] at h
      exact Or.inr h.symm

theorem unpackImages_thrown (vars : SessionVars) (env : FlashEnv) (t : Thrown)
    (h : (unpackImages vars env).2 = some t) :
    t = Thrown.obj ("ImageWorker not initialized") none ∨
    t = Thrown.code Error.CHECKSUM_MISMATCH ∨ t = Thrown.undef := by
  cases hW : vars.imageWorkerSet with
  | false =>
    simp [unpackImages, hW] at h
    exact Or.inl h.symm
  | true =>
    cases hL : (unpackLoop env vars.manifest 0).2 with
    | none => simp [unpackImages, hW, hL] at h
    | some msg =>
      simp [unpackImages, hW, hL] at h
      by_cases hc : strStartsWith msg ("Checksum mismatch") <;> simp [hc] at h
      · exact Or.inr (Or.inl h.symm)
      · exact Or.inr (Or.inr h.symm)

theorem flashDevice_thrown (vars : SessionVars) (env : FlashEnv) (t : Thrown)
    (h : (flashDevice vars env).2 = some t) :
    t = Thrown.obj ("ImageWorker not initialized") none ∨
    t = Thrown.code Error.FLASH_FAILED := by
  cases hW : vars.imageWorkerSet with
  | false =>
    simp [flashDevice, hW] at h
    exact Or.inl h.symm
  | true =>
    cases hG : env.getActiveSlotOk with
    | false =>
      simp [flashDevice, hW, hG] at h
      exact Or.inr h.symm
    | true =>
      by_cases hS : env.activeSlot = "a" ∨ env.activeSlot = "b"
      · cases hE : env.eraseOk ("xbl_" ++ env.activeSlot) with
        | false =>
          simp [flashDevice, hW, hG, hS, hE] at h
          exact Or.inr h.symm
        | true =>
          cases hF : (flashLoop env (if env.activeSlot = "a" then "b" else "a")
              vars.manifest 0).2 with
          | false =>
            simp [flashDevice, hW, hG, hS, hE, hF] at h
            exact Or.inr h.symm
          | true =>
            cases hSet : env.setSlotOk with
            | false =>
              simp [flashDevice, hW, hG, hS, hE, hF, hSet] at h
              exact Or.inr h.symm
            | true => simp [flashDevice, hW, hG, hS, hE, hF, hSet] at h
      · simp [flashDevice, hW, hG, hS] at h
        exact Or.inr h.symm

theorem eraseDevice_thrown (env : FlashEnv) (t : Thrown)
    (h : (eraseDevice env).2 = some t) : t = Thrown.code Error.ERASE_FAILED := by
  cases hU : env.flashOk ("userdata") with
  | false =>
    simp [eraseDevice, hU] at h
    exact h.symm
  | true =>
    cases hR : env.resetOk with
    | false =>
      simp [eraseDevice, hU, hR] at h
      exact h.symm
    | true => simp [eraseDevice, hU, hR] at h

theorem downloadImages_events (vars : SessionVars) (env : FlashEnv) :
    ∀ e ∈ (downloadImages vars env).1,
      noStepErrEvent e = true ∨ e = Event.setStep Step.UNPACKING := by
  intro e he
  cases hW : vars.imageWorkerSet with
  | false => simp [downloadImages, hW] at he
  | true =>
    cases hL : (downloadLoop env vars.manifest 0).2 with
    | true =>
      simp [downloadImages, hW, hL] at he
      rcases he with he | he | he
      · subst he; exact Or.inl rfl
      · exact Or.inl (benign_noStepErr e (downloadLoop_benign env vars.manifest 0 e he))
      · exact Or.inr he
    | false =>
      simp [downloadImages, hW, hL] at he
      rcases he with he | he
      · subst he; exact Or.inl rfl
      · exact Or.inl (benign_noStepErr e (downloadLoop_benign env vars.manifest 0 e he))

theorem unpackImages_events (vars : SessionVars) (env : FlashEnv) :
    ∀ e ∈ (unpackImages vars env).1,
      noStepErrEvent e = true ∨ e = Event.setStep Step.FLASHING := by
  intro e he
  cases hW : vars.imageWorkerSet with
  | false => simp [unpackImages, hW] at he
  | true =>
    cases hL : (unpackLoop env vars.manifest 0).2 with
    | none =>
      simp [unpackImages, hW, hL] at he
      rcases he with he | he | he
      · subst he; exact Or.inl rfl
      · exact Or.inl (benign_noStepErr e (unpackLoop_benign env vars.manifest 0 e he))
      · exact Or.inr he
    | some msg =>
      simp [unpackImages, hW, hL] at he
      rcases he with he | he
      · subst he; exact Or.inl rfl
      · exact Or.inl (benign_noStepErr e (unpackLoop_benign env vars.manifest 0 e he))

theorem flashDevice_events (vars : SessionVars) (env : FlashEnv) :
    ∀ e ∈ (flashDevice vars env).1, noStepErrEvent e = true := by
  intro e he
  cases hW : vars.imageWorkerSet with
  | false => simp [flashDevice, hW] at he
  | true =>
    cases hG : env.getActiveSlotOk with
    | false =>
      simp [flashDevice, hW, hG] at he
      rcases he with he | he <;> subst he <;> rfl
    | true =>
      by_cases hS : env.activeSlot = "a" ∨ env.activeSlot = "b"
      · cases hE : env.eraseOk ("xbl_" ++ env.activeSlot) with
        | false =>
          simp [flashDevice, hW, hG, hS, hE] at he
          rcases he with he | he | he <;> subst he <;> rfl
        | true =>
          cases hF : (flashLoop env (if env.activeSlot = "a" then "b" else "a")
              vars.manifest 0).2 with
          | false =>
            simp [flashDevice, hW, hG, hS, hE, hF] at he
            rcases he with he | he | he | he
            · subst he; rfl
            · subst he; rfl
            · subst he; rfl
            · exact flashLoopEvent_noStepErr e
                (flashLoop_benign env (if env.activeSlot = "a" then "b" else "a")
                  vars.manifest 0 e he)
          | true =>
            cases hSet : env.setSlotOk with
            | false =>
              simp [flashDevice, hW, hG, hS, hE, hF, hSet] at he
              rcases he with he | he | he | he | he | he
              · subst he; rfl
              · subst he; rfl
              · subst he; rfl
              · exact flashLoopEvent_noStepErr e
                  (flashLoop_benign env (if env.activeSlot = "a" then "b" else "a")
                    vars.manifest 0 e he)
              · subst he; rfl
              · subst he; rfl
            | true =>
              simp [flashDevice, hW, hG, hS, hE, hF, hSet] at he
              rcases he with he | he | he | he | he | he
              · subst he; rfl
              · subst he; rfl
              · subst he; rfl
              · exact flashLoopEvent_noStepErr e
                  (flashLoop_benign env (if env.activeSlot = "a" then "b" else "a")
                    vars.manifest 0 e he)
              · subst he; rfl
              · subst he; rfl
      · simp [flashDevice, hW, hG, hS] at he
        rcases he with he | he <;> subst he <;> rfl

theorem eraseDevice_events (env : FlashEnv) :
    ∀ e ∈ (eraseDevice env).1, noStepErrEvent e = true := by
  intro e he
  cases hU : env.flashOk ("userdata") with
  | false =>
    simp [eraseDevice, hU] at he
    rcases he with he | he | he <;> subst he <;> rfl
  | true =>
    cases hR : env.resetOk with
    | false =>
      simp [eraseDevice, hU, hR] at he
      rcases he with he | he | he | he | he | he <;> subst he <;> rfl
    | true =>
      simp [eraseDevice, hU, hR] at he
      rcases he with he | he | he | he | he | he | he | he <;> subst he <;> rfl

theorem finishWithThrown_ne_done (pre : List Event) (t : Thrown) :
    (finishWithThrown pre t).2 ≠ SFOutcome.done := by
  cases hv : errValOfThrown t <;> simp [finishWithThrown, hv]

theorem finishWithThrown_ne_unrecognized (pre : List Event) (t : Thrown) :
    (finishWithThrown pre t).2 ≠ SFOutcome.unrecognized := by
  cases hv : errValOfThrown t <;> simp [finishWithThrown, hv]

theorem finishWithThrown_handled (pre : List Event) (t : Thrown) (v : ErrVal)
    (h : (finishWithThrown pre t).2 = SFOutcome.handled v) :
    errValOfThrown t = some v ∧
    (finishWithThrown pre t).1 = pre ++ handleErrorEvents v := by
  cases hv : errValOfThrown t with
  | none => simp [finishWithThrown, hv] at h
  | some v2 =>
    simp [finishWithThrown, hv] at h
    subst h
    exact ⟨rfl, by simp [finishWithThrown, hv]⟩

theorem finishWithThrown_crashed (pre : List Event) (t : Thrown)
    (h : (finishWithThrown pre t).2 = SFOutcome.crashed) :
    errValOfThrown t = none ∧ (finishWithThrown pre t).1 = pre := by
  cases hv : errValOfThrown t with
  | some v2 => simp [finishWithThrown, hv] at h
  | none => exact ⟨rfl, by simp [finishWithThrown, hv]⟩

theorem errValOfThrown_shape (t : Thrown) (v : ErrVal) (h : errValOfThrown t = some v) :
    (∃ c, t = Thrown.code c ∧ v = ErrVal.enum c) ∨ (∃ s, v = ErrVal.str s) ∨
    (∃ m, v = ErrVal.obj m) ∨ (∃ n, v = ErrVal.num n ∧ n ≠ 0) := by
  cases t with
  | code c =>
    left
    simp [errValOfThrown] at h
    exact ⟨c, rfl, h.symm⟩
  | str s =>
    right; left
    simp [errValOfThrown] at h
    exact ⟨s, h.symm⟩
  | obj m c =>
    cases c with
    | none =>
      right; right; left
      simp [errValOfThrown] at h
      exact ⟨m, h.symm⟩
    | some n =>
      by_cases hn : n = 0
      · right; right; left
        subst hn
        simp [errValOfThrown] at h
        exact ⟨m, h.symm⟩
      · right; right; right
        simp [errValOfThrown, hn] at h
        exact ⟨n, h.symm, hn⟩
  | undef => simp [errValOfThrown] at h

/-! ### Corollaries of the phase lemmas -/

theorem handleErrorEvents_no_setStep (v : ErrVal) (x : Step) :
    Event.setStep x ∉ handleErrorEvents v := by
  simp [handleErrorEvents]

theorem handleErrorEvents_setError (v w : ErrVal)
    (h : Event.setError w ∈ handleErrorEvents v) : w = v := by
  simp [handleErrorEvents] at h
  exact h

theorem finishWithThrown_events (pre : List Event) (t : Thrown) :
    (finishWithThrown pre t).1 = pre ∨
    ∃ v, errValOfThrown t = some v ∧
      (finishWithThrown pre t).1 = pre ++ handleErrorEvents v := by
  cases hv : errValOfThrown t with
  | none => exact Or.inl (by simp [finishWithThrown, hv])
  | some v => exact Or.inr ⟨v, rfl, by simp [finishWithThrown, hv]⟩

theorem extThrown_shape (x : ExtThrown) (v : ErrVal)
    (h : errValOfThrown x.toThrown = some v) :
    (∃ s, v = ErrVal.str s) ∨ (∃ m, v = ErrVal.obj m) ∨
    (∃ n, v = ErrVal.num n ∧ n ≠ 0) := by
  rcases errValOfThrown_shape _ _ h with ⟨c, ht, hv⟩ | hs | hm | hn
  · cases x <;> simp [ExtThrown.toThrown] at ht
  · exact Or.inl hs
  · exact Or.inr (Or.inl hm)
  · exact Or.inr (Or.inr hn)

theorem downloadImages_setStep (vars : SessionVars) (env : FlashEnv) (x : Step)
    (h : Event.setStep x ∈ (downloadImages vars env).1) : x = Step.UNPACKING := by
  rcases downloadImages_events vars env _ h with h2 | h2
  · simp [noStepErrEvent] at h2
  · simpa using h2

theorem unpackImages_setStep (vars : SessionVars) (env : FlashEnv) (x : Step)
    (h : Event.setStep x ∈ (unpackImages vars env).1) : x = Step.FLASHING := by
  rcases unpackImages_events vars env _ h with h2 | h2
  · simp [noStepErrEvent] at h2
  · simpa using h2

theorem flashDevice_no_setStep (vars : SessionVars) (env : FlashEnv) (x : Step) :
    Event.setStep x ∉ (flashDevice vars env).1 := by
  intro h
  have := flashDevice_events vars env _ h
  simp [noStepErrEvent] at this

theorem eraseDevice_no_setStep (env : FlashEnv) (x : Step) :
    Event.setStep x ∉ (eraseDevice env).1 := by
  intro h
  have := eraseDevice_events env _ h
  simp [noStepErrEvent] at this

theorem downloadImages_no_setError (vars : SessionVars) (env : FlashEnv) (v : ErrVal) :
    Event.setError v ∉ (downloadImages vars env).1 := by
  intro h
  rcases downloadImages_events vars env _ h with h2 | h2
  · simp [noStepErrEvent] at h2
  · simp at h2

theorem unpackImages_no_setError (vars : SessionVars) (env : FlashEnv) (v : ErrVal) :
    Event.setError v ∉ (unpackImages vars env).1 := by
  intro h
  rcases unpackImages_events vars env _ h with h2 | h2
  · simp [noStepErrEvent] at h2
  · simp at h2

theorem flashDevice_no_setError (vars : SessionVars) (env : FlashEnv) (v : ErrVal) :
    Event.setError v ∉ (flashDevice vars env).1 := by
  intro h
  have := flashDevice_events vars env _ h
  simp [noStepErrEvent] at this

theorem eraseDevice_no_setError (env : FlashEnv) (v : ErrVal) :
    Event.setError v ∉ (eraseDevice env).1 := by
  intro h
  have := eraseDevice_events env _ h
  simp [noStepErrEvent] at this

theorem downloadImages_fail_no_setStep (vars : SessionVars) (env : FlashEnv)
    (hfail : (downloadImages vars env).2 ≠ none) (x : Step) :
    Event.setStep x ∉ (downloadImages vars env).1 := by
  intro h
  cases hW : vars.imageWorkerSet with
  | false => simp [downloadImages, hW] at h
  | true =>
    cases hL : (downloadLoop env vars.manifest 0).2 with
    | true => exact hfail (by simp [downloadImages, hW, hL])
    | false =>
      simp [downloadImages, hW, hL] at h
      exact benign_no_setStep _ (downloadLoop_benign env vars.manifest 0) x h

theorem unpackImages_fail_no_setStep (vars : SessionVars) (env : FlashEnv)
    (hfail : (unpackImages vars env).2 ≠ none) (x : Step) :
    Event.setStep x ∉ (unpackImages vars env).1 := by
  intro h
  cases hW : vars.imageWorkerSet with
  | false => simp [unpackImages, hW] at h
  | true =>
    cases hL : (unpackLoop env vars.manifest 0).2 with
    | none => exact hfail (by simp [unpackImages, hW, hL])
    | some msg =>
      simp [unpackImages, hW, hL] at h
      exact benign_no_setStep _ (unpackLoop_benign env vars.manifest 0) x h

theorem lastStep_downloadImages_ok (vars : SessionVars) (env : FlashEnv) (s0 : Step)
    (h : (downloadImages vars env).2 = none) :
    lastStep (downloadImages vars env).1 s0 = Step.UNPACKING := by
  rw [downloadImages_ok vars env h]
  have hsplit : Event.setProgress 0 :: (downloadLoop env vars.manifest 0).1 ++
      [Event.setStep Step.UNPACKING] =
      (Event.setProgress 0 :: (downloadLoop env vars.manifest 0).1) ++
        [Event.setStep Step.UNPACKING] := by simp
  rw [hsplit, lastStep_append]
  rfl

theorem lastStep_unpackImages_ok (vars : SessionVars) (env : FlashEnv) (s0 : Step)
    (h : (unpackImages vars env).2 = none) :
    lastStep (unpackImages vars env).1 s0 = Step.FLASHING := by
  rw [unpackImages_ok vars env h]
  have hsplit : Event.setProgress 0 :: (unpackLoop env vars.manifest 0).1 ++
      [Event.setStep Step.FLASHING] =
      (Event.setProgress 0 :: (unpackLoop env vars.manifest 0).1) ++
        [Event.setStep Step.FLASHING] := by simp
  rw [hsplit, lastStep_append]
  rfl

/-! ### Session-level lemmas -/

theorem startFlashing_done (vars : SessionVars) (env : FlashEnv)
    (h : (startFlashing vars env).2 = SFOutcome.done) :
    (downloadImages vars env).2 = none ∧ (unpackImages vars env).2 = none ∧
    (flashDevice vars env).2 = none ∧ (eraseDevice env).2 = none ∧
    (startFlashing vars env).1 =
      [Event.setStep Step.CONNECTING, Event.dev DevAction.waitForConnect,
       Event.dev DevAction.getDevicePartitionsInfo,
       Event.setSerial (serialValue env.serial), Event.setConnected true,
       Event.setStep Step.DOWNLOADING] ++
      (downloadImages vars env).1 ++ (unpackImages vars env).1 ++
      (flashDevice vars env).1 ++ (eraseDevice env).1 ++ [Event.setStep Step.DONE] := by
  cases hc : env.connectResult with
  | some t => simp [startFlashing, hc, finishWithThrown_ne_done] at h
  | none =>
    cases hi : env.devInfoResult with
    | some t => simp [startFlashing, hc, hi, finishWithThrown_ne_done] at h
    | none =>
      cases hr : isRecognizedDevice env.slotCount env.partitions with
      | false => simp [startFlashing, hc, hi, hr] at h
      | true =>
        cases hd : (downloadImages vars env).2 with
        | some t => simp [startFlashing, hc, hi, hr, hd, finishWithThrown_ne_done] at h
        | none =>
          cases hu : (unpackImages vars env).2 with
          | some t => simp [startFlashing, hc, hi, hr, hd, hu, finishWithThrown_ne_done] at h
          | none =>
            cases hf : (flashDevice vars env).2 with
            | some t =>
              simp [startFlashing, hc, hi, hr, hd, hu, hf, finishWithThrown_ne_done] at h
            | none =>
              cases he : (eraseDevice env).2 with
              | some t =>
                simp [startFlashing, hc, hi, hr, hd, hu, hf, he,
                  finishWithThrown_ne_done] at h
              | none =>
                refine ⟨rfl, rfl, rfl, rfl, ?_⟩
                simp [startFlashing, hc, hi, hr, hd, hu, hf, he]

theorem startFlashing_handled (vars : SessionVars) (env : FlashEnv) (v : ErrVal)
    (h : (startFlashing vars env).2 = SFOutcome.handled v) :
    (∃ pre, (startFlashing vars env).1 = pre ++ handleErrorEvents v) ∧
    (v = ErrVal.enum Error.DOWNLOAD_FAILED ∨ v = ErrVal.enum Error.CHECKSUM_MISMATCH ∨
     v = ErrVal.enum Error.FLASH_FAILED ∨ v = ErrVal.enum Error.ERASE_FAILED ∨
     (∃ s, v = ErrVal.str s) ∨ (∃ m, v = ErrVal.obj m) ∨
     (∃ n, v = ErrVal.num n ∧ n ≠ 0)) := by
  cases hc : env.connectResult with
  | some t =>
    simp only [startFlashing, hc] at h ⊢
    obtain ⟨hv, htr⟩ := finishWithThrown_handled _ _ _ h
    exact ⟨⟨_, htr⟩,
      Or.inr (Or.inr (Or.inr (Or.inr (extThrown_shape t v hv))))⟩
  | none =>
    cases hi : env.devInfoResult with
    | some t =>
      simp only [startFlashing, hc, hi] at h ⊢
      obtain ⟨hv, htr⟩ := finishWithThrown_handled _ _ _ h
      exact ⟨⟨_, htr⟩,
        Or.inr (Or.inr (Or.inr (Or.inr (extThrown_shape t v hv))))⟩
    | none =>
      cases hr : isRecognizedDevice env.slotCount env.partitions with
      | false => simp [startFlashing, hc, hi, hr] at h
      | true =>
        cases hd : (downloadImages vars env).2 with
        | some t =>
          simp only [startFlashing, hc, hi, hr, Bool.true_eq_false, if_false, hd] at h ⊢
          obtain ⟨hv, htr⟩ := finishWithThrown_handled _ _ _ h
          refine ⟨⟨_, htr⟩, ?_⟩
          rcases downloadImages_thrown vars env t hd with ht | ht
          · subst ht
            simp [errValOfThrown] at hv
            subst hv
            exact Or.inr (Or.inr (Or.inr (Or.inr (Or.inr (Or.inl ⟨_, rfl⟩)))))
          · subst ht
            simp [errValOfThrown] at hv
            subst hv
            exact Or.inl rfl
        | none =>
          cases hu : (unpackImages vars env).2 with
          | some t =>
            simp only [startFlashing, hc, hi, hr, Bool.true_eq_false, if_false, hd, hu] at h ⊢
            obtain ⟨hv, htr⟩ := finishWithThrown_handled _ _ _ h
            refine ⟨⟨_, htr⟩, ?_⟩
            rcases unpackImages_thrown vars env t hu with ht | ht | ht
            · subst ht
              simp [errValOfThrown] at hv
              subst hv
              exact Or.inr (Or.inr (Or.inr (Or.inr (Or.inr (Or.inl ⟨_, rfl⟩)))))
            · subst ht
              simp [errValOfThrown] at hv
              subst hv
              exact Or.inr (Or.inl rfl)
            · subst ht
              simp [errValOfThrown] at hv
          | none =>
            cases hf : (flashDevice vars env).2 with
            | some t =>
              simp only [startFlashing, hc, hi, hr, Bool.true_eq_false, if_false, hd, hu,
                hf] at h ⊢
              obtain ⟨hv, htr⟩ := finishWithThrown_handled _ _ _ h
              refine ⟨⟨_, htr⟩, ?_⟩
              rcases flashDevice_thrown vars env t hf with ht | ht
              · subst ht
                simp [errValOfThrown] at hv
                subst hv
                exact Or.inr (Or.inr (Or.inr (Or.inr (Or.inr (Or.inl ⟨_, rfl⟩)))))
              · subst ht
                simp [errValOfThrown] at hv
                subst hv
                exact Or.inr (Or.inr (Or.inl rfl))
            | none =>
              cases he : (eraseDevice env).2 with
              | some t =>
                simp only [startFlashing, hc, hi, hr, Bool.true_eq_false, if_false, hd, hu,
                  hf, he] at h ⊢
                obtain ⟨hv, htr⟩ := finishWithThrown_handled _ _ _ h
                refine ⟨⟨_, htr⟩, ?_⟩
                have ht := eraseDevice_thrown env t he
                subst ht
                simp [errValOfThrown] at hv
                subst hv
                exact Or.inr (Or.inr (Or.inr (Or.inl rfl)))
              | none => simp [startFlashing, hc, hi, hr, hd, hu, hf, he] at h

theorem startFlashing_setStep (vars : SessionVars) (env : FlashEnv) (x : Step)
    (h : Event.setStep x ∈ (startFlashing vars env).1) :
    x = Step.CONNECTING ∨ x = Step.DOWNLOADING ∨ x = Step.UNPACKING ∨
    x = Step.FLASHING ∨ x = Step.DONE := by
  cases hc : env.connectResult with
  | some t =>
    simp only [startFlashing, hc] at h
    rcases finishWithThrown_events _ t.toThrown with htr | ⟨v, hv, htr⟩ <;>
      rw [htr] at h <;> simp [handleErrorEvents] at h <;> exact Or.inl h
  | none =>
    cases hi : env.devInfoResult with
    | some t =>
      simp only [startFlashing, hc, hi] at h
      rcases finishWithThrown_events _ t.toThrown with htr | ⟨v, hv, htr⟩ <;>
        rw [htr] at h <;> simp [handleErrorEvents] at h <;> exact Or.inl h
    | none =>
      cases hr : isRecognizedDevice env.slotCount env.partitions with
      | false =>
        simp [startFlashing, hc, hi, hr] at h
        exact Or.inl h
      | true =>
        cases hd : (downloadImages vars env).2 with
        | some t =>
          simp only [startFlashing, hc, hi, hr, Bool.true_eq_false, if_false, hd] at h
          rcases finishWithThrown_events _ t with htr | ⟨v, hv, htr⟩ <;>
            rw [htr] at h <;> simp [handleErrorEvents] at h <;>
            rcases h with h | h | h
          · exact Or.inl h
          · exact Or.inr (Or.inl h)
          · exact Or.inr (Or.inr (Or.inl (downloadImages_setStep vars env x h)))
          · exact Or.inl h
          · exact Or.inr (Or.inl h)
          · exact Or.inr (Or.inr (Or.inl (downloadImages_setStep vars env x h)))
        | none =>
          cases hu : (unpackImages vars env).2 with
          | some t =>
            simp only [startFlashing, hc, hi, hr, Bool.true_eq_false, if_false, hd, hu] at h
            rcases finishWithThrown_events _ t with htr | ⟨v, hv, htr⟩ <;>
              rw [htr] at h <;> simp [handleErrorEvents] at h <;>
              rcases h with h | h | h | h
            · exact Or.inl h
            · exact Or.inr (Or.inl h)
            · exact Or.inr (Or.inr (Or.inl (downloadImages_setStep vars env x h)))
            · exact Or.inr (Or.inr (Or.inr (Or.inl (unpackImages_setStep vars env x h))))
            · exact Or.inl h
            · exact Or.inr (Or.inl h)
            · exact Or.inr (Or.inr (Or.inl (downloadImages_setStep vars env x h)))
            · exact Or.inr (Or.inr (Or.inr (Or.inl (unpackImages_setStep vars env x h))))
          | none =>
            cases hf : (flashDevice vars env).2 with
            | some t =>
              simp only [startFlashing, hc, hi, hr, Bool.true_eq_false, if_false, hd, hu,
                hf] at h
              rcases finishWithThrown_events _ t with htr | ⟨v, hv, htr⟩ <;>
                rw [htr] at h <;> simp [handleErrorEvents] at h <;>
                rcases h with h | h | h | h | h
              · exact Or.inl h
              · exact Or.inr (Or.inl h)
              · exact Or.inr (Or.inr (Or.inl (downloadImages_setStep vars env x h)))
              · exact Or.inr (Or.inr (Or.inr (Or.inl (unpackImages_setStep vars env x h))))
              · exact absurd h (flashDevice_no_setStep vars env x)
              · exact Or.inl h
              · exact Or.inr (Or.inl h)
              · exact Or.inr (Or.inr (Or.inl (downloadImages_setStep vars env x h)))
              · exact Or.inr (Or.inr (Or.inr (Or.inl (unpackImages_setStep vars env x h))))
              · exact absurd h (flashDevice_no_setStep vars env x)
            | none =>
              cases he : (eraseDevice env).2 with
              | some t =>
                simp only [startFlashing, hc, hi, hr, Bool.true_eq_false, if_false, hd, hu,
                  hf, he] at h
                rcases finishWithThrown_events _ t with htr | ⟨v, hv, htr⟩ <;>
                  rw [htr] at h <;> simp [handleErrorEvents] at h <;>
                  rcases h with h | h | h | h | h | h
                · exact Or.inl h
                · exact Or.inr (Or.inl h)
                · exact Or.inr (Or.inr (Or.inl (downloadImages_setStep vars env x h)))
                · exact Or.inr (Or.inr (Or.inr (Or.inl (unpackImages_setStep vars env x h))))
                · exact absurd h (flashDevice_no_setStep vars env x)
                · exact absurd h (eraseDevice_no_setStep env x)
                · exact Or.inl h
                · exact Or.inr (Or.inl h)
                · exact Or.inr (Or.inr (Or.inl (downloadImages_setStep vars env x h)))
                · exact Or.inr (Or.inr (Or.inr (Or.inl (unpackImages_setStep vars env x h))))
                · exact absurd h (flashDevice_no_setStep vars env x)
                · exact absurd h (eraseDevice_no_setStep env x)
              | none =>
                simp [startFlashing, hc, hi, hr, hd, hu, hf, he] at h
                rcases h with h | h | h | h | h | h | h
                · exact Or.inl h
                · exact Or.inr (Or.inl h)
                · exact Or.inr (Or.inr (Or.inl (downloadImages_setStep vars env x h)))
                · exact Or.inr (Or.inr (Or.inr (Or.inl (unpackImages_setStep vars env x h))))
                · exact absurd h (flashDevice_no_setStep vars env x)
                · exact absurd h (eraseDevice_no_setStep env x)
                · exact Or.inr (Or.inr (Or.inr (Or.inr h)))

theorem startFlashing_setError (vars : SessionVars) (env : FlashEnv) (v : ErrVal)
    (h : Event.setError v ∈ (startFlashing vars env).1) :
    v = ErrVal.enum Error.UNRECOGNIZED_DEVICE ∨ v = ErrVal.enum Error.DOWNLOAD_FAILED ∨
    v = ErrVal.enum Error.CHECKSUM_MISMATCH ∨ v = ErrVal.enum Error.FLASH_FAILED ∨
    v = ErrVal.enum Error.ERASE_FAILED ∨ (∃ s, v = ErrVal.str s) ∨
    (∃ m, v = ErrVal.obj m) ∨ (∃ n, v = ErrVal.num n ∧ n ≠ 0) := by
  cases hc : env.connectResult with
  | some t =>
    simp only [startFlashing, hc] at h
    rcases finishWithThrown_events _ t.toThrown with htr | ⟨w, hv, htr⟩ <;>
      rw [htr] at h <;> simp [handleErrorEvents] at h
    subst h
    exact Or.inr (Or.inr (Or.inr (Or.inr (Or.inr (extThrown_shape t v hv)))))
  | none =>
    cases hi : env.devInfoResult with
    | some t =>
      simp only [startFlashing, hc, hi] at h
      rcases finishWithThrown_events _ t.toThrown with htr | ⟨w, hv, htr⟩ <;>
        rw [htr] at h <;> simp [handleErrorEvents] at h
      subst h
      exact Or.inr (Or.inr (Or.inr (Or.inr (Or.inr (extThrown_shape t v hv)))))
    | none =>
      cases hr : isRecognizedDevice env.slotCount env.partitions with
      | false =>
        simp [startFlashing, hc, hi, hr] at h
        exact Or.inl h
      | true =>
        cases hd : (downloadImages vars env).2 with
        | some t =>
          simp only [startFlashing, hc, hi, hr, Bool.true_eq_false, if_false, hd] at h
          rcases finishWithThrown_events _ t with htr | ⟨w, hv, htr⟩ <;>
            rw [htr] at h <;> simp [handleErrorEvents] at h
          · exact absurd h (downloadImages_no_setError vars env v)
          rcases h with h | h
          · exact absurd h (downloadImages_no_setError vars env v)
          · subst h
            rcases downloadImages_thrown vars env t hd with ht | ht <;> subst ht <;>
              simp [errValOfThrown] at hv <;> subst hv
            · exact Or.inr (Or.inr (Or.inr (Or.inr (Or.inr (Or.inr (Or.inl ⟨_, rfl⟩))))))
            · exact Or.inr (Or.inl rfl)
        | none =>
          cases hu : (unpackImages vars env).2 with
          | some t =>
            simp only [startFlashing, hc, hi, hr, Bool.true_eq_false, if_false, hd, hu] at h
            rcases finishWithThrown_events _ t with htr | ⟨w, hv, htr⟩ <;>
              rw [htr] at h <;> simp [handleErrorEvents] at h
            · rcases h with h | h
              · exact absurd h (downloadImages_no_setError vars env v)
              · exact absurd h (unpackImages_no_setError vars env v)
            rcases h with h | h | h
            · exact absurd h (downloadImages_no_setError vars env v)
            · exact absurd h (unpackImages_no_setError vars env v)
            · subst h
              rcases unpackImages_thrown vars env t hu with ht | ht | ht <;> subst ht <;>
                simp [errValOfThrown] at hv
              · subst hv
                exact Or.inr (Or.inr (Or.inr (Or.inr (Or.inr (Or.inr (Or.inl ⟨_, rfl⟩))))))
              · subst hv
                exact Or.inr (Or.inr (Or.inl rfl))
          | none =>
            cases hf : (flashDevice vars env).2 with
            | some t =>
              simp only [startFlashing, hc, hi, hr, Bool.true_eq_false, if_false, hd, hu,
                hf] at h
              rcases finishWithThrown_events _ t with htr | ⟨w, hv, htr⟩ <;>
                rw [htr] at h <;> simp [handleErrorEvents] at h
              · rcases h with h | h | h
                · exact absurd h (downloadImages_no_setError vars env v)
                · exact absurd h (unpackImages_no_setError vars env v)
                · exact absurd h (flashDevice_no_setError vars env v)
              rcases h with h | h | h | h
              · exact absurd h (downloadImages_no_setError vars env v)
              · exact absurd h (unpackImages_no_setError vars env v)
              · exact absurd h (flashDevice_no_setError vars env v)
              · subst h
                rcases flashDevice_thrown vars env t hf with ht | ht <;> subst ht <;>
                  simp [errValOfThrown] at hv <;> subst hv
                · exact Or.inr (Or.inr (Or.inr (Or.inr (Or.inr (Or.inr (Or.inl ⟨_, rfl⟩))))))
                · exact Or.inr (Or.inr (Or.inr (Or.inl rfl)))
            | none =>
              cases he : (eraseDevice env).2 with
              | some t =>
                simp only [startFlashing, hc, hi, hr, Bool.true_eq_false, if_false, hd, hu,
                  hf, he] at h
                rcases finishWithThrown_events _ t with htr | ⟨w, hv, htr⟩ <;>
                  rw [htr] at h <;> simp [handleErrorEvents] at h
                · rcases h with h | h | h | h
                  · exact absurd h (downloadImages_no_setError vars env v)
                  · exact absurd h (unpackImages_no_setError vars env v)
                  · exact absurd h (flashDevice_no_setError vars env v)
                  · exact absurd h (eraseDevice_no_setError env v)
                rcases h with h | h | h | h | h
                · exact absurd h (downloadImages_no_setError vars env v)
                · exact absurd h (unpackImages_no_setError vars env v)
                · exact absurd h (flashDevice_no_setError vars env v)
                · exact absurd h (eraseDevice_no_setError env v)
                · subst h
                  have ht := eraseDevice_thrown env t he
                  subst ht
                  simp [errValOfThrown] at hv
                  subst hv
                  exact Or.inr (Or.inr (Or.inr (Or.inr (Or.inl rfl))))
              | none =>
                simp [startFlashing, hc, hi, hr, hd, hu, hf, he] at h
                rcases h with h | h | h | h
                · exact absurd h (downloadImages_no_setError vars env v)
                · exact absurd h (unpackImages_no_setError vars env v)
                · exact absurd h (flashDevice_no_setError vars env v)
                · exact absurd h (eraseDevice_no_setError env v)

theorem lastStep_nil (s0 : Step) : lastStep [] s0 = s0 := rfl

theorem lastStep_cons (e : Event) (t : List Event) (s0 : Step) :
    lastStep (e :: t) s0 =
      lastStep t (match e with | Event.setStep s => s | _ => s0) := rfl

theorem lastStep_handleErrorEvents (v : ErrVal) (s0 : Step) :
    lastStep (handleErrorEvents v) s0 = s0 :=
  lastStep_no_setStep _ (fun x => handleErrorEvents_no_setStep v x) s0

theorem lastStep_flashDevice (vars : SessionVars) (env : FlashEnv) (s0 : Step) :
    lastStep (flashDevice vars env).1 s0 = s0 :=
  lastStep_no_setStep _ (fun x => flashDevice_no_setStep vars env x) s0

theorem lastStep_eraseDevice (env : FlashEnv) (s0 : Step) :
    lastStep (eraseDevice env).1 s0 = s0 :=
  lastStep_no_setStep _ (fun x => eraseDevice_no_setStep env x) s0

theorem lastStep_downloadImages_fail (vars : SessionVars) (env : FlashEnv)
    (hfail : (downloadImages vars env).2 ≠ none) (s0 : Step) :
    lastStep (downloadImages vars env).1 s0 = s0 :=
  lastStep_no_setStep _ (fun x => downloadImages_fail_no_setStep vars env hfail x) s0

theorem lastStep_unpackImages_fail (vars : SessionVars) (env : FlashEnv)
    (hfail : (unpackImages vars env).2 ≠ none) (s0 : Step) :
    lastStep (unpackImages vars env).1 s0 = s0 :=
  lastStep_no_setStep _ (fun x => unpackImages_fail_no_setStep vars env hfail x) s0

theorem startFlashing_not_done_step (vars : SessionVars) (env : FlashEnv) (st : StoreState)
    (h : (startFlashing vars env).2 ≠ SFOutcome.done) :
    (applyEvents st (startFlashing vars env).1).step ≠ Step.DONE := by
  rw [applyEvents_step]
  cases hc : env.connectResult with
  | some t =>
    simp only [startFlashing, hc]
    rcases finishWithThrown_events _ t.toThrown with htr | ⟨w, hv, htr⟩ <;> rw [htr] <;>
      simp [lastStep_append, lastStep_cons, lastStep_nil, lastStep_handleErrorEvents]
  | none =>
    cases hi : env.devInfoResult with
    | some t =>
      simp only [startFlashing, hc, hi]
      rcases finishWithThrown_events _ t.toThrown with htr | ⟨w, hv, htr⟩ <;> rw [htr] <;>
        simp [lastStep_append, lastStep_cons, lastStep_nil, lastStep_handleErrorEvents]
    | none =>
      cases hr : isRecognizedDevice env.slotCount env.partitions with
      | false =>
        simp [startFlashing, hc, hi, hr, lastStep_append, lastStep_cons, lastStep_nil]
      | true =>
        cases hd : (downloadImages vars env).2 with
        | some t =>
          have hfail : (downloadImages vars env).2 ≠ none := by simp [hd]
          simp only [startFlashing, hc, hi, hr, Bool.true_eq_false, if_false, hd]
          rcases finishWithThrown_events _ t with htr | ⟨w, hv, htr⟩ <;> rw [htr] <;>
            simp [lastStep_append, lastStep_cons, lastStep_nil, lastStep_handleErrorEvents,
              lastStep_downloadImages_fail vars env hfail]
        | none =>
          cases hu : (unpackImages vars env).2 with
          | some t =>
            have hfail : (unpackImages vars env).2 ≠ none := by simp [hu]
            simp only [startFlashing, hc, hi, hr, Bool.true_eq_false, if_false, hd, hu]
            rcases finishWithThrown_events _ t with htr | ⟨w, hv, htr⟩ <;> rw [htr] <;>
              simp [lastStep_append, lastStep_cons, lastStep_nil, lastStep_handleErrorEvents,
                lastStep_downloadImages_ok vars env _ hd,
                lastStep_unpackImages_fail vars env hfail]
          | none =>
            cases hf : (flashDevice vars env).2 with
            | some t =>
              simp only [startFlashing, hc, hi, hr, Bool.true_eq_false, if_false, hd, hu, hf]
              rcases finishWithThrown_events _ t with htr | ⟨w, hv, htr⟩ <;> rw [htr] <;>
                simp [lastStep_append, lastStep_cons, lastStep_nil,
                  lastStep_handleErrorEvents, lastStep_downloadImages_ok vars env _ hd,
                  lastStep_unpackImages_ok vars env _ hu, lastStep_flashDevice]
            | none =>
              cases he : (eraseDevice env).2 with
              | some t =>
                simp only [startFlashing, hc, hi, hr, Bool.true_eq_false, if_false, hd, hu,
                  hf, he]
                rcases finishWithThrown_events _ t with htr | ⟨w, hv, htr⟩ <;> rw [htr] <;>
                  simp [lastStep_append, lastStep_cons, lastStep_nil,
                    lastStep_handleErrorEvents, lastStep_downloadImages_ok vars env _ hd,
                    lastStep_unpackImages_ok vars env _ hu, lastStep_flashDevice,
                    lastStep_eraseDevice]
              | none => simp [startFlashing, hc, hi, hr, hd, hu, hf, he] at h

/-! ### Additional concrete fixtures -/

/-- `happyEnv` with an unrecognized slot count. -/
def unrecEnv : FlashEnv := { happyEnv with slotCount := 1 }

/-- `happyEnv` with an unknown active slot value. -/
def badSlotEnv : FlashEnv := { happyEnv with activeSlot := "x" }

/-- `happyEnv` with every image download failing. -/
def downloadFailEnv : FlashEnv := { happyEnv with downloadOk := fun _ => false }

/-- `happyEnv` with every unpack failing with a generic message. -/
def unpackFailEnv : FlashEnv :=
  { happyEnv with unpackResult := fun _ => some ("bad archive") }

/-- `happyEnv` with every unpack failing with a checksum-marker message. -/
def checksumFailEnv : FlashEnv :=
  { happyEnv with unpackResult := fun _ => some ("Checksum mismatch got deadbeef") }

/-- `happyEnv` with the connection attempt rejecting with a raw error
object (no `code` property). -/
def rawFailEnv : FlashEnv :=
  { happyEnv with connectResult := some (ExtThrown.obj ("Access denied") none) }

/-- An initialization environment whose capability check fails (no
WebUSB). -/
def badInitEnv : InitEnv :=
  { usbDefined := false, workerDefined := true, storageDefined := true,
    workerInitOk := true, blobOk := true, manifestParse := none }

/-! ### Claim theorems -/

/-- C3: `isRecognizedDevice` returns false whenever `slotCount ≠ 2`;
with `slotCount = 2` it returns true iff every entry of the partition
list is a member of the fixed allow-list (so an empty partition list
passes, and it returns false if any entry is outside the allow-list). -/
theorem C3_isRecognizedDevice_spec :
    (∀ (slotCount : Int) (partitions : List String), slotCount ≠ 2 →
      isRecognizedDevice slotCount partitions = false) ∧
    (∀ partitions : List String,
      isRecognizedDevice 2 partitions = true ↔
        ∀ p ∈ partitions, p ∈ expectedPartitions) := by
  constructor
  · intro sc ps hsc
    simp [isRecognizedDevice, hsc]
  · intro ps
    simp [isRecognizedDevice, List.all_eq_true]

/-- C3 witness: a slot count of 3 is rejected; a recognized partition
list with slot count 2 is accepted. -/
theorem C3_witness :
    isRecognizedDevice 3 ["boot"] = false ∧
    isRecognizedDevice 2 ["boot", "xbl"] = true := by
  constructor
  · exact C3_isRecognizedDevice_spec.1 3 ["boot"] (by decide)
  · exact (C3_isRecognizedDevice_spec.2 ["boot", "xbl"]).mpr (by decide)

/-- C2: the erase phase writes to the (not slot-suffixed) `userdata`
partition a payload of exactly 28 bytes — the 11 ASCII bytes of the
fixed reset marker "COMMA_RESET" followed by 17 zero bytes — then sets
progress to 0.9, issues a device reset, then sets progress to 1 and
connected to false. -/
theorem C2_eraseDevice_spec :
    resetMarkerBytes = [67, 79, 77, 77, 65, 95, 82, 69, 83, 69, 84] ∧
    resetMarkerBytes.length = 11 ∧
    erasePayload = resetMarkerBytes ++ List.replicate 17 0 ∧
    erasePayload.length = 28 ∧
    (∀ env : FlashEnv, env.flashOk ("userdata") = true → env.resetOk = true →
      eraseDevice env =
        ([Event.setProgress 0, Event.setMessage ("Erasing userdata"),
          Event.dev (DevAction.flashBlob ("userdata") (Payload.bytes erasePayload)),
          Event.setProgress (9 / 10), Event.setMessage ("Rebooting"),
          Event.dev DevAction.reset, Event.setProgress 1, Event.setConnected false],
         none)) := by
  refine ⟨by decide, by decide, by decide, by decide, ?_⟩
  intro env h1 h2
  simp [eraseDevice, h1, h2]

/-- C2 witness: the erase-phase trace on the cooperative environment. -/
theorem C2_witness :
    eraseDevice happyEnv =
      ([Event.setProgress 0, Event.setMessage ("Erasing userdata"),
        Event.dev (DevAction.flashBlob ("userdata") (Payload.bytes erasePayload)),
        Event.setProgress (9 / 10), Event.setMessage ("Rebooting"),
        Event.dev DevAction.reset, Event.setProgress 1, Event.setConnected false],
       none) :=
  C2_eraseDevice_spec.2.2.2.2 happyEnv rfl rfl

/-- C1: with current slot "a" the flash phase (on success) erases the
bootloader of the current slot and writes each manifest image, in manifest
order, to `<imageName>_b`, finishing by switching the active slot to
"b"; symmetrically for current slot "b" with suffix `_a`; any other
current-slot value raises FLASH_FAILED before issuing any erase or
write to the device. -/
theorem C1_flashDevice_slots :
    (∀ (vars : SessionVars) (env : FlashEnv), env.activeSlot = "a" →
      (flashDevice vars env).2 = none →
      devWrites (flashDevice vars env).1 =
        DevAction.erase ("xbl_a") ::
          vars.manifest.map (fun img =>
            DevAction.flashBlob (img.name ++ "_b") (Payload.file img.name)) ++
          [DevAction.setActiveSlot ("b")]) ∧
    (∀ (vars : SessionVars) (env : FlashEnv), env.activeSlot = "b" →
      (flashDevice vars env).2 = none →
      devWrites (flashDevice vars env).1 =
        DevAction.erase ("xbl_b") ::
          vars.manifest.map (fun img =>
            DevAction.flashBlob (img.name ++ "_a") (Payload.file img.name)) ++
          [DevAction.setActiveSlot ("a")]) ∧
    (∀ (vars : SessionVars) (env : FlashEnv), vars.imageWorkerSet = true →
      env.getActiveSlotOk = true → env.activeSlot ≠ "a" → env.activeSlot ≠ "b" →
      (flashDevice vars env).2 = some (Thrown.code Error.FLASH_FAILED) ∧
      devWrites (flashDevice vars env).1 = []) := by
  refine ⟨?_, ?_, ?_⟩
  · intro vars env hA hok
    obtain ⟨hS, hF, htr⟩ := flashDevice_ok vars env hok
    rw [hA] at hF htr
    have hF2 : (flashLoop env ("b") vars.manifest 0).2 = true := hF
    rw [htr]
    show devWrites
        (([Event.setProgress 0, Event.dev DevAction.getActiveSlot,
           Event.dev (DevAction.erase ("xbl_a"))]) ++
          ((flashLoop env ("b") vars.manifest 0).1 ++
            [Event.setMessage ("Changing slot to b"),
             Event.dev (DevAction.setActiveSlot ("b"))])) = _
    rw [devWrites_append, devWrites_append, flashLoop_devWrites env ("b") vars.manifest 0 hF2]
    rfl
  · intro vars env hA hok
    obtain ⟨hS, hF, htr⟩ := flashDevice_ok vars env hok
    rw [hA] at hF htr
    have hF2 : (flashLoop env ("a") vars.manifest 0).2 = true := hF
    rw [htr]
    show devWrites
        (([Event.setProgress 0, Event.dev DevAction.getActiveSlot,
           Event.dev (DevAction.erase ("xbl_b"))]) ++
          ((flashLoop env ("a") vars.manifest 0).1 ++
            [Event.setMessage ("Changing slot to a"),
             Event.dev (DevAction.setActiveSlot ("a"))])) = _
    rw [devWrites_append, devWrites_append, flashLoop_devWrites env ("a") vars.manifest 0 hF2]
    rfl
  · intro vars env hW hok hA hB
    have hS : ¬(env.activeSlot = "a" ∨ env.activeSlot = "b") := by simp [hA, hB]
    constructor <;> simp [flashDevice, hW, hok, hS, devWrites]

/-- C1 witness: on the cooperative environment with current slot "a" and
a two-image manifest, the device writes are the bootloader erase on slot
"a", the two image writes suffixed `_b` in manifest order, and the slot
switch to "b"; on an unknown slot value the phase fails with
FLASH_FAILED issuing no erase or write. -/
theorem C1_witness :
    devWrites (flashDevice twoImageVars happyEnv).1 =
      [DevAction.erase ("xbl_a"),
       DevAction.flashBlob ("boot_b") (Payload.file ("boot")),
       DevAction.flashBlob ("system_b") (Payload.file ("system")),
       DevAction.setActiveSlot ("b")] ∧
    (flashDevice twoImageVars badSlotEnv).2 = some (Thrown.code Error.FLASH_FAILED) ∧
    devWrites (flashDevice twoImageVars badSlotEnv).1 = [] := by
  refine ⟨?_, ?_, ?_⟩
  · have h := C1_flashDevice_slots.1 twoImageVars happyEnv rfl (by decide)
    simpa using h
  · exact (C1_flashDevice_slots.2.2 twoImageVars badSlotEnv rfl rfl
      (by decide) (by decide)).1
  · exact (C1_flashDevice_slots.2.2 twoImageVars badSlotEnv rfl rfl
      (by decide) (by decide)).2

/-- C10: `startFlashing` checks no precondition on the store state: for
every module-variable state and environment its first two effects are
publishing step CONNECTING and issuing the device connection wait (the
model takes no store-state input because the code reads none). -/
theorem C10_startFlashing_first_effects (vars : SessionVars) (env : FlashEnv) :
    ((startFlashing vars env).1).take 2 =
      [Event.setStep Step.CONNECTING, Event.dev DevAction.waitForConnect] := by
  cases hc : env.connectResult with
  | some t =>
    simp only [startFlashing, hc]
    rcases finishWithThrown_events _ t.toThrown with htr | ⟨w, hv, htr⟩ <;> rw [htr] <;> rfl
  | none =>
    cases hi : env.devInfoResult with
    | some t =>
      simp only [startFlashing, hc, hi]
      rcases finishWithThrown_events _ t.toThrown with htr | ⟨w, hv, htr⟩ <;> rw [htr] <;> rfl
    | none =>
      cases hr : isRecognizedDevice env.slotCount env.partitions with
      | false => simp [startFlashing, hc, hi, hr]
      | true =>
        cases hd : (downloadImages vars env).2 with
        | some t =>
          simp only [startFlashing, hc, hi, hr, Bool.true_eq_false, if_false, hd]
          rcases finishWithThrown_events _ t with htr | ⟨w, hv, htr⟩ <;> rw [htr] <;> rfl
        | none =>
          cases hu : (unpackImages vars env).2 with
          | some t =>
            simp only [startFlashing, hc, hi, hr, Bool.true_eq_false, if_false, hd, hu]
            rcases finishWithThrown_events _ t with htr | ⟨w, hv, htr⟩ <;> rw [htr] <;> rfl
          | none =>
            cases hf : (flashDevice vars env).2 with
            | some t =>
              simp only [startFlashing, hc, hi, hr, Bool.true_eq_false, if_false, hd, hu, hf]
              rcases finishWithThrown_events _ t with htr | ⟨w, hv, htr⟩ <;> rw [htr] <;> rfl
            | none =>
              cases he : (eraseDevice env).2 with
              | some t =>
                simp only [startFlashing, hc, hi, hr, Bool.true_eq_false, if_false, hd, hu,
                  hf, he]
                rcases finishWithThrown_events _ t with htr | ⟨w, hv, htr⟩ <;> rw [htr] <;>
                  rfl
              | none => simp [startFlashing, hc, hi, hr, hd, hu, hf, he]

/-- C5: the failure path of the unpack phase references `Error.UNPACK_FAILED`,
a key absent from the `Error` record of this file: a non-checksum unpack
failure therefore throws `undefined` (and the error handler crashes on
it), while a checksum-marker failure throws CHECKSUM_MISMATCH; the phase
aborts on the first failing image. -/
theorem C5_unpack_missing_code :
    ErrorRecord.lookup ("UNPACK_FAILED") = none ∧
    ErrorRecord.lookup ("CHECKSUM_MISMATCH") = some 4 ∧
    (unpackImages twoImageVars unpackFailEnv).2 = some Thrown.undef ∧
    (unpackImages twoImageVars checksumFailEnv).2 =
      some (Thrown.code Error.CHECKSUM_MISMATCH) ∧
    handleError Thrown.undef = none ∧
    (startFlashing twoImageVars unpackFailEnv).2 = SFOutcome.crashed ∧
    (startFlashing twoImageVars checksumFailEnv).2 =
      SFOutcome.handled (ErrVal.enum Error.CHECKSUM_MISMATCH) ∧
    Event.worker (WorkerCall.unpackImage ("system")) ∉
      (unpackImages twoImageVars unpackFailEnv).1 := by decide

/-! ### Step-tracking lemmas for the wipe-time observation -/

theorem trackStep_cons (e : Event) (t : List Event) (cur : Option Step) :
    trackStep (e :: t) cur =
      trackStep t (match e with | Event.setStep s => some s | _ => cur) := rfl

theorem trackStep_append (t1 t2 : List Event) (cur : Option Step) :
    trackStep (t1 ++ t2) cur = trackStep t2 (trackStep t1 cur) := by
  simp [trackStep]

theorem trackStep_no_setStep :
    ∀ t : List Event, (∀ x : Step, Event.setStep x ∉ t) → ∀ cur, trackStep t cur = cur := by
  intro t
  induction t with
  | nil => intro _ _; rfl
  | cons e t ih =>
    intro h cur
    have he : ∀ x : Step, Event.setStep x ∉ t :=
      fun x hx => h x (List.mem_cons_of_mem _ hx)
    cases e with
    | setStep x => exact absurd (List.mem_cons_self _ _) (h x)
    | setMessage m => exact ih he cur
    | setProgress p => exact ih he cur
    | setError v => exact ih he cur
    | setConnected b => exact ih he cur
    | setSerial sv => exact ih he cur
    | setOnContinue c => exact ih he cur
    | setOnRetry c => exact ih he cur
    | dev a => exact ih he cur
    | worker w => exact ih he cur

theorem stepAtFirst_cons (p : Event → Bool) (e : Event) (t : List Event) (cur : Option Step) :
    stepAtFirst p (e :: t) cur =
      if p e then cur
      else stepAtFirst p t (match e with | Event.setStep s => some s | _ => cur) := rfl

theorem stepAtFirst_append_aux (p : Event → Bool) :
    ∀ t1 : List Event, (∀ e ∈ t1, p e = false) → ∀ t2 cur,
      stepAtFirst p (t1 ++ t2) cur = stepAtFirst p t2 (trackStep t1 cur) := by
  intro t1
  induction t1 with
  | nil => intro _ t2 cur; rfl
  | cons e t ih =>
    intro h t2 cur
    have hpe : p e = false := h e (List.mem_cons_self _ _)
    have ht : ∀ e2 ∈ t, p e2 = false := fun e2 he2 => h e2 (List.mem_cons_of_mem _ he2)
    rw [List.cons_append, stepAtFirst_cons, hpe, trackStep_cons]
    exact ih ht t2 _

theorem stepAtFirst_append (p : Event → Bool) (t1 : List Event)
    (h : ∀ e ∈ t1, p e = false) (t2 : List Event) (cur : Option Step) :
    stepAtFirst p (t1 ++ t2) cur = stepAtFirst p t2 (trackStep t1 cur) :=
  stepAtFirst_append_aux p t1 h t2 cur

theorem not_wipe_of_ne (e : Event)
    (h : e ≠ Event.dev (DevAction.flashBlob ("userdata") (Payload.bytes erasePayload))) :
    isWipeEvent e = false := by
  simp [isWipeEvent, h]

theorem benign_not_wipe (e : Event) (h : benignEvent e = true) : isWipeEvent e = false := by
  cases e with
  | setMessage m => apply not_wipe_of_ne; simp
  | worker w => apply not_wipe_of_ne; simp
  | setStep x => simp [benignEvent] at h
  | setProgress p => simp [benignEvent] at h
  | setError v => simp [benignEvent] at h
  | setConnected b => simp [benignEvent] at h
  | setSerial sv => simp [benignEvent] at h
  | setOnContinue c => simp [benignEvent] at h
  | setOnRetry c => simp [benignEvent] at h
  | dev a => simp [benignEvent] at h

theorem forall_mem_nil_event (p : Event → Prop) : ∀ e ∈ ([] : List Event), p e :=
  fun e he => absurd he (List.not_mem_nil e)

theorem flashLoopEvent_not_wipe (e : Event) (h : flashLoopEvent e = true) :
    isWipeEvent e = false := by
  cases e with
  | setStep x => simp [flashLoopEvent] at h
  | setMessage m => apply not_wipe_of_ne; simp
  | setProgress p => apply not_wipe_of_ne; simp
  | setError v => simp [flashLoopEvent] at h
  | setConnected b => simp [flashLoopEvent] at h
  | setSerial sv => simp [flashLoopEvent] at h
  | setOnContinue c => simp [flashLoopEvent] at h
  | setOnRetry c => simp [flashLoopEvent] at h
  | worker w => apply not_wipe_of_ne; simp
  | dev a =>
    cases a with
    | waitForConnect => apply not_wipe_of_ne; simp
    | getDevicePartitionsInfo => apply not_wipe_of_ne; simp
    | getActiveSlot => apply not_wipe_of_ne; simp
    | erase p => apply not_wipe_of_ne; simp
    | setActiveSlot s => apply not_wipe_of_ne; simp
    | reset => apply not_wipe_of_ne; simp
    | flashBlob p pay =>
      cases pay with
      | file n => apply not_wipe_of_ne; simp
      | bytes d => simp [flashLoopEvent] at h

/-- C4 (amended): on every successful `startFlashing` run, the step in
effect when the user-data wipe is issued is FLASHING — not ERASING — and
`Step.ERASING` is never published at all; the step then moves directly
from FLASHING to DONE. -/
theorem C4_step_during_erase (vars : SessionVars) (env : FlashEnv)
    (h : (startFlashing vars env).2 = SFOutcome.done) :
    stepAtFirst isWipeEvent (startFlashing vars env).1 none = some Step.FLASHING ∧
    Event.setStep Step.ERASING ∉ (startFlashing vars env).1 := by
  obtain ⟨hd, hu, hf, he, htr⟩ := startFlashing_done vars env h
  constructor
  · have hP6 : ∀ e ∈ [Event.setStep Step.CONNECTING, Event.dev DevAction.waitForConnect,
        Event.dev DevAction.getDevicePartitionsInfo,
        Event.setSerial (serialValue env.serial), Event.setConnected true,
        Event.setStep Step.DOWNLOADING], isWipeEvent e = false :=
      List.forall_mem_cons.mpr ⟨rfl, List.forall_mem_cons.mpr ⟨rfl,
        List.forall_mem_cons.mpr ⟨rfl, List.forall_mem_cons.mpr ⟨rfl,
          List.forall_mem_cons.mpr ⟨rfl, List.forall_mem_cons.mpr ⟨rfl,
            forall_mem_nil_event _⟩⟩⟩⟩⟩⟩
    have hD1 : ∀ e ∈ (downloadImages vars env).1, isWipeEvent e = false := by
      rw [downloadImages_ok vars env hd]
      refine List.forall_mem_append.mpr ⟨List.forall_mem_cons.mpr ⟨rfl, ?_⟩,
        List.forall_mem_cons.mpr ⟨rfl, forall_mem_nil_event _⟩⟩
      exact fun e he2 => benign_not_wipe e (downloadLoop_benign env vars.manifest 0 e he2)
    have hU1 : ∀ e ∈ (unpackImages vars env).1, isWipeEvent e = false := by
      rw [unpackImages_ok vars env hu]
      refine List.forall_mem_append.mpr ⟨List.forall_mem_cons.mpr ⟨rfl, ?_⟩,
        List.forall_mem_cons.mpr ⟨rfl, forall_mem_nil_event _⟩⟩
      exact fun e he2 => benign_not_wipe e (unpackLoop_benign env vars.manifest 0 e he2)
    have hF1 : ∀ e ∈ (flashDevice vars env).1, isWipeEvent e = false := by
      obtain ⟨hS, hFloop, hftr⟩ := flashDevice_ok vars env hf
      rw [hftr]
      refine List.forall_mem_append.mpr ⟨List.forall_mem_append.mpr ⟨?_, ?_⟩, ?_⟩
      · exact List.forall_mem_cons.mpr ⟨rfl, List.forall_mem_cons.mpr ⟨rfl,
          forall_mem_nil_event _⟩⟩
      · refine List.forall_mem_cons.mpr ⟨rfl, ?_⟩
        exact fun e he2 => flashLoopEvent_not_wipe e
          (flashLoop_benign env (if env.activeSlot = "a" then "b" else "a")
            vars.manifest 0 e he2)
      · exact List.forall_mem_cons.mpr ⟨rfl, List.forall_mem_cons.mpr ⟨rfl,
          forall_mem_nil_event _⟩⟩
    rw [htr]
    simp only [List.append_assoc]
    rw [stepAtFirst_append isWipeEvent _ hP6, stepAtFirst_append isWipeEvent _ hD1,
      stepAtFirst_append isWipeEvent _ hU1, stepAtFirst_append isWipeEvent _ hF1]
    have h2 : ∀ cur, trackStep (downloadImages vars env).1 cur = some Step.UNPACKING := by
      intro cur
      rw [downloadImages_ok vars env hd, trackStep_append]
      rfl
    have h3 : ∀ cur, trackStep (unpackImages vars env).1 cur = some Step.FLASHING := by
      intro cur
      rw [unpackImages_ok vars env hu, trackStep_append]
      rfl
    have h4 : ∀ cur, trackStep (flashDevice vars env).1 cur = cur :=
      trackStep_no_setStep _ (fun x => flashDevice_no_setStep vars env x)
    rw [h2, h3, h4, eraseDevice_ok env he]
    rfl
  · intro hmem
    have := startFlashing_setStep vars env Step.ERASING hmem
    simp at this

/-- C4 witness: the amended statement at the concrete successful
two-image session. -/
theorem C4_witness :
    stepAtFirst isWipeEvent (startFlashing twoImageVars happyEnv).1 none =
      some Step.FLASHING ∧
    Event.setStep Step.ERASING ∉ (startFlashing twoImageVars happyEnv).1 :=
  C4_step_during_erase twoImageVars happyEnv (by decide)

/-- C4 counterexample: a concrete successful session (two images,
cooperative device on slot "a") in which the published step at the moment
the user-data wipe is issued is FLASHING, not ERASING, and ERASING is
never published before DONE. -/
theorem C4_counterexample :
    (startFlashing twoImageVars happyEnv).2 = SFOutcome.done ∧
    stepAtFirst isWipeEvent (startFlashing twoImageVars happyEnv).1 none =
      some Step.FLASHING ∧
    stepAtFirst isWipeEvent (startFlashing twoImageVars happyEnv).1 none ≠
      some Step.ERASING ∧
    Event.setStep Step.ERASING ∉ (startFlashing twoImageVars happyEnv).1 := by decide

/-! ### Error-write accounting for whole-process runs -/

theorem lastErr_cases : ∀ (t : List Event) (c : ErrVal),
    lastErr t c = c ∨ ∃ v, Event.setError v ∈ t ∧ lastErr t c = v := by
  intro t
  induction t with
  | nil => intro c; exact Or.inl rfl
  | cons e t ih =>
    intro c
    cases e with
    | setError w =>
      rcases ih w with h1 | ⟨v, hv, h1⟩
      · exact Or.inr ⟨w, List.mem_cons_self _ _, h1⟩
      · exact Or.inr ⟨v, List.mem_cons_of_mem _ hv, h1⟩
    | setStep x =>
      rcases ih c with h1 | ⟨v, hv, h1⟩
      · exact Or.inl h1
      · exact Or.inr ⟨v, List.mem_cons_of_mem _ hv, h1⟩
    | setMessage m =>
      rcases ih c with h1 | ⟨v, hv, h1⟩
      · exact Or.inl h1
      · exact Or.inr ⟨v, List.mem_cons_of_mem _ hv, h1⟩
    | setProgress p =>
      rcases ih c with h1 | ⟨v, hv, h1⟩
      · exact Or.inl h1
      · exact Or.inr ⟨v, List.mem_cons_of_mem _ hv, h1⟩
    | setConnected b =>
      rcases ih c with h1 | ⟨v, hv, h1⟩
      · exact Or.inl h1
      · exact Or.inr ⟨v, List.mem_cons_of_mem _ hv, h1⟩
    | setSerial sv =>
      rcases ih c with h1 | ⟨v, hv, h1⟩
      · exact Or.inl h1
      · exact Or.inr ⟨v, List.mem_cons_of_mem _ hv, h1⟩
    | setOnContinue c2 =>
      rcases ih c with h1 | ⟨v, hv, h1⟩
      · exact Or.inl h1
      · exact Or.inr ⟨v, List.mem_cons_of_mem _ hv, h1⟩
    | setOnRetry c2 =>
      rcases ih c with h1 | ⟨v, hv, h1⟩
      · exact Or.inl h1
      · exact Or.inr ⟨v, List.mem_cons_of_mem _ hv, h1⟩
    | dev a =>
      rcases ih c with h1 | ⟨v, hv, h1⟩
      · exact Or.inl h1
      · exact Or.inr ⟨v, List.mem_cons_of_mem _ hv, h1⟩
    | worker w =>
      rcases ih c with h1 | ⟨v, hv, h1⟩
      · exact Or.inl h1
      · exact Or.inr ⟨v, List.mem_cons_of_mem _ hv, h1⟩

theorem initStore_setError (vars : SessionVars) (env : InitEnv) (v : ErrVal)
    (h : Event.setError v ∈ (initStore vars env).1) :
    v = ErrVal.enum Error.REQUIREMENTS_NOT_MET ∨ v = ErrVal.enum Error.UNKNOWN := by
  by_cases hcap : env.usbDefined ∧ env.workerDefined ∧ env.storageDefined
  · cases hw : env.workerInitOk with
    | false =>
      simp [initStore, hcap, hw] at h
      exact Or.inr h
    | true =>
      cases hb : env.blobOk with
      | false =>
        simp [initStore, hcap, hw, hb] at h
        exact Or.inr h
      | true =>
        cases hm : env.manifestParse with
        | none =>
          simp [initStore, hcap, hw, hb, hm] at h
          exact Or.inr h
        | some m =>
          by_cases hlen : m.length = 0
          · simp [initStore, hcap, hw, hb, hm, hlen] at h
            exact Or.inr h
          · simp [initStore, hcap, hw, hb, hm, hlen] at h
  · simp [initStore, hcap] at h
    exact Or.inl h

theorem runOp_setError (st : StoreState) (vars : SessionVars) (op : Op) (v : ErrVal)
    (h : Event.setError v ∈ (runOp st vars op).events) : v ≠ ErrVal.enum Error.NONE := by
  cases op with
  | init env =>
    simp only [runOp] at h
    rcases initStore_setError vars env v h with h1 | h1 <;> subst h1 <;> simp
  | flash env =>
    simp only [runOp] at h
    rcases startFlashing_setError vars env v h with
      h1 | h1 | h1 | h1 | h1 | ⟨s, h1⟩ | ⟨m, h1⟩ | ⟨n, h1, hn⟩ <;> subst h1 <;> simp

/-- C9: no operation of the session store ever writes NONE to the error
field after construction — `initialize` and the `startFlashing` error
paths only publish non-NONE values — so once a non-NONE error is
published, the error field stays non-NONE for the rest of the process
run. -/
theorem C9_error_never_reset :
    (∀ (st : StoreState) (vars : SessionVars) (ops : List Op) (v : ErrVal),
      Event.setError v ∈ (runOps st vars ops).events → v ≠ ErrVal.enum Error.NONE) ∧
    (∀ (st : StoreState) (vars : SessionVars) (ops : List Op),
      st.error ≠ ErrVal.enum Error.NONE →
      (runOps st vars ops).state.error ≠ ErrVal.enum Error.NONE) := by
  have hmem : ∀ (ops : List Op) (st : StoreState) (vars : SessionVars) (v : ErrVal),
      Event.setError v ∈ (runOps st vars ops).events → v ≠ ErrVal.enum Error.NONE := by
    intro ops
    induction ops with
    | nil =>
      intro st vars v h
      simp [runOps] at h
    | cons op rest ih =>
      intro st vars v h
      simp only [runOps] at h
      rcases List.mem_append.mp h with h | h
      · exact runOp_setError st vars op v h
      · exact ih _ _ v h
  have herr : ∀ (ops : List Op) (st : StoreState) (vars : SessionVars),
      st.error ≠ ErrVal.enum Error.NONE →
      (runOps st vars ops).state.error ≠ ErrVal.enum Error.NONE := by
    intro ops
    induction ops with
    | nil =>
      intro st vars h
      simpa [runOps] using h
    | cons op rest ih =>
      intro st vars h
      simp only [runOps]
      apply ih
      have hstate : (runOp st vars op).state = applyEvents st (runOp st vars op).events := by
        cases op <;> rfl
      rw [hstate, applyEvents_error]
      rcases lastErr_cases (runOp st vars op).events st.error with h1 | ⟨w, hw, h1⟩
      · rw [h1]; exact h
      · rw [h1]; exact runOp_setError st vars op w hw
  exact ⟨fun st vars ops v h => hmem ops st vars v h,
    fun st vars ops h => herr ops st vars h⟩

/-- C9 witness: after an initialization failure, running a fully
successful flash still leaves the error field non-NONE. -/
theorem C9_witness :
    (runOps initialState initialVars [Op.init badInitEnv, Op.flash happyEnv]).state.error ≠
      ErrVal.enum Error.NONE := by
  have h0 : (runOps initialState initialVars [Op.init badInitEnv]).state.error ≠
      ErrVal.enum Error.NONE := by decide
  exact C9_error_never_reset.2
    (runOps initialState initialVars [Op.init badInitEnv]).state
    (runOps initialState initialVars [Op.init badInitEnv]).vars [Op.flash happyEnv]
    (by decide)

/-- C8 counterexample: initialize with a failed capability check
(publishing REQUIREMENTS_NOT_MET, leaving the manifest empty), then run
`startFlashing` against a cooperative recognized device: the session
reaches step DONE while the published errorCode is still
REQUIREMENTS_NOT_MET, not NONE. -/
theorem C8_counterexample :
    (runOps initialState initialVars [Op.init badInitEnv, Op.flash happyEnv]).state.step =
      Step.DONE ∧
    (runOps initialState initialVars [Op.init badInitEnv, Op.flash happyEnv]).state.error =
      ErrVal.enum Error.REQUIREMENTS_NOT_MET ∧
    ¬((runOps initialState initialVars [Op.init badInitEnv, Op.flash happyEnv]).state.error =
      ErrVal.enum Error.NONE) := by decide

/-- C8 (amended): if the errorCode is NONE when `startFlashing` is
invoked, then reaching step DONE implies the errorCode is still NONE;
an error published before the call (by a failed initialization) is
never cleared and can survive into DONE. -/
theorem C8_done_error_NONE (st : StoreState) (vars : SessionVars) (env : FlashEnv)
    (h0 : st.error = ErrVal.enum Error.NONE)
    (hstep : (applyEvents st (startFlashing vars env).1).step = Step.DONE) :
    (applyEvents st (startFlashing vars env).1).error = ErrVal.enum Error.NONE := by
  by_cases hdone : (startFlashing vars env).2 = SFOutcome.done
  · obtain ⟨hd, hu, hf, he, htr⟩ := startFlashing_done vars env hdone
    have hnoerr : ∀ v : ErrVal, Event.setError v ∉ (startFlashing vars env).1 := by
      intro v hv
      rw [htr] at hv
      simp only [List.append_assoc] at hv
      rcases List.mem_append.mp hv with hv | hv
      · simp at hv
      rcases List.mem_append.mp hv with hv | hv
      · exact downloadImages_no_setError vars env v hv
      rcases List.mem_append.mp hv with hv | hv
      · exact unpackImages_no_setError vars env v hv
      rcases List.mem_append.mp hv with hv | hv
      · exact flashDevice_no_setError vars env v hv
      rcases List.mem_append.mp hv with hv | hv
      · exact eraseDevice_no_setError env v hv
      · simp at hv
    rw [applyEvents_error, lastErr_no_setError _ hnoerr st.error]
    exact h0
  · exact absurd hstep (startFlashing_not_done_step vars env st hdone)

/-- C8 witness: a fully successful session started from the freshly
constructed store reaches DONE with errorCode NONE. -/
theorem C8_witness :
    (applyEvents initialState (startFlashing twoImageVars happyEnv).1).error =
      ErrVal.enum Error.NONE :=
  C8_done_error_NONE initialState twoImageVars happyEnv rfl (by decide)

/-- C6 counterexample: when the device-recognition check rejects (a
phase failure of the connecting phase), the session publishes
UNRECOGNIZED_DEVICE but does not set progress to -1 and does not arm
onRetry: it returns leaving progress at 0 and onRetry null. -/
theorem C6_counterexample :
    (startFlashing twoImageVars unrecEnv).2 = SFOutcome.unrecognized ∧
    (applyEvents initialState (startFlashing twoImageVars unrecEnv).1).error =
      ErrVal.enum Error.UNRECOGNIZED_DEVICE ∧
    (applyEvents initialState (startFlashing twoImageVars unrecEnv).1).progress = 0 ∧
    ¬((applyEvents initialState (startFlashing twoImageVars unrecEnv).1).progress = -1) ∧
    (applyEvents initialState (startFlashing twoImageVars unrecEnv).1).onRetry = none ∧
    (applyEvents initialState (startFlashing twoImageVars unrecEnv).1).onContinue =
      none := by decide

/-- C6 (amended): whenever a phase of a started session fails by
throwing a defined value, the error handler publishes the derived error
value, sets progress to -1, clears onContinue, and arms onRetry with the
reload-wrapping callback; the unrecognized-device rejection instead only
publishes its code and returns. -/
theorem C6_handleError_effects (st : StoreState) (vars : SessionVars) (env : FlashEnv)
    (v : ErrVal) (h : (startFlashing vars env).2 = SFOutcome.handled v) :
    (applyEvents st (startFlashing vars env).1).error = v ∧
    (applyEvents st (startFlashing vars env).1).progress = -1 ∧
    (applyEvents st (startFlashing vars env).1).onContinue = none ∧
    (applyEvents st (startFlashing vars env).1).onRetry = some Callback.reloadThunk := by
  obtain ⟨⟨pre, htr⟩, hshape⟩ := startFlashing_handled vars env v h
  rw [htr, applyEvents_append]
  exact ⟨(applyEvents_handle _ v).1, (applyEvents_handle _ v).2.1,
    (applyEvents_handle _ v).2.2.1, (applyEvents_handle _ v).2.2.2.1⟩

/-- C6 witness: a download failure publishes DOWNLOAD_FAILED, halts with
progress -1, clears onContinue, and arms onRetry. -/
theorem C6_witness :
    (applyEvents initialState (startFlashing twoImageVars downloadFailEnv).1).error =
      ErrVal.enum Error.DOWNLOAD_FAILED ∧
    (applyEvents initialState (startFlashing twoImageVars downloadFailEnv).1).progress =
      -1 ∧
    (applyEvents initialState (startFlashing twoImageVars downloadFailEnv).1).onContinue =
      none ∧
    (applyEvents initialState (startFlashing twoImageVars downloadFailEnv).1).onRetry =
      some Callback.reloadThunk :=
  C6_handleError_effects initialState twoImageVars downloadFailEnv
    (ErrVal.enum Error.DOWNLOAD_FAILED) (by decide)

/-- C7 counterexample: a raw connect failure (an error object with no
`code` property) is published to the error field as the raw object
itself — a value outside the coarse error taxonomy — and not as
UNKNOWN. -/
theorem C7_counterexample :
    (startFlashing twoImageVars rawFailEnv).2 =
      SFOutcome.handled (ErrVal.obj ("Access denied")) ∧
    (applyEvents initialState (startFlashing twoImageVars rawFailEnv).1).error =
      ErrVal.obj ("Access denied") ∧
    ErrVal.isCoarse
      (applyEvents initialState (startFlashing twoImageVars rawFailEnv).1).error =
      false ∧
    ¬((applyEvents initialState (startFlashing twoImageVars rawFailEnv).1).error =
      ErrVal.enum Error.UNKNOWN) := by decide

/-- C7 (amended): every failure of a started session that reaches the
error handler publishes `err.code || err`: one of the four phase codes
(DOWNLOAD_FAILED, CHECKSUM_MISMATCH, FLASH_FAILED, ERASE_FAILED) when the
phase threw a coarse code, and otherwise the raw thrown value itself (a
string, an error object, or its truthy numeric `code`), never normalized
to UNKNOWN. -/
theorem C7_published_error_values (st : StoreState) (vars : SessionVars) (env : FlashEnv)
    (v : ErrVal) (h : (startFlashing vars env).2 = SFOutcome.handled v) :
    (applyEvents st (startFlashing vars env).1).error = v ∧
    (v = ErrVal.enum Error.DOWNLOAD_FAILED ∨ v = ErrVal.enum Error.CHECKSUM_MISMATCH ∨
     v = ErrVal.enum Error.FLASH_FAILED ∨ v = ErrVal.enum Error.ERASE_FAILED ∨
     (∃ s, v = ErrVal.str s) ∨ (∃ m, v = ErrVal.obj m) ∨
     (∃ n, v = ErrVal.num n ∧ n ≠ 0)) := by
  obtain ⟨⟨pre, htr⟩, hshape⟩ := startFlashing_handled vars env v h
  rw [htr, applyEvents_append]
  exact ⟨(applyEvents_handle _ v).1, hshape⟩

/-- C7 witness: the raw connect failure is published as the raw object. -/
theorem C7_witness :
    (applyEvents initialState (startFlashing twoImageVars rawFailEnv).1).error =
      ErrVal.obj ("Access denied") :=
  (C7_published_error_values initialState twoImageVars rawFailEnv
    (ErrVal.obj ("Access denied")) (by decide)).1

end Flash
